import Mathlib

/-!
# SB-RPL / ALICE unicast Orchestra rule with upstream/downstream separation

Shallow embedding of
`orchestra-rule-unicast-per-neighbor-rpl-storing-UD-separation.c`.

* Pointers to link-layer addresses are `Option linkaddr_t` (`none` is `NULL`).
* `uint16_t` results are natural numbers reduced modulo `2 ^ 16` by `toU16`.
* Configuration macros that the file uses but does not define are the fields of `Config`.
* The file's global variables are the fields of `State`.
-/

namespace SBRPL

/-! ## Data model -/

/-- Link-layer address (`linkaddr_t`): an opaque fixed-width identifier, represented by the
number its bytes encode. -/
structure linkaddr_t where
  id : Nat
deriving DecidableEq, Repr

/-- The reserved all-zero address `linkaddr_null`. -/
def linkaddr_null : linkaddr_t := ⟨0⟩

/-- Address comparison `linkaddr_cmp`: true when the two addresses are equal. -/
def linkaddr_cmp (a b : linkaddr_t) : Bool := decide (a = b)

/-- Build-time configuration: the macros the rule reads and that are defined outside the file.
The hash macros are taken as functions returning a non-negative integer for a present
address. -/
structure Config where
  ALICE_UPSTREAM_PERIOD : Int
  ALICE_DOWNSTREAM_PERIOD : Int
  /-- Value of `sizeof(TSCH_DEFAULT_HOPPING_SEQUENCE)/sizeof(uint8_t)`. -/
  num_ch : Nat
  ORCHESTRA_LINKADDR_HASH : linkaddr_t → Nat
  ORCHESTRA_LINKADDR_HASH2 : linkaddr_t → linkaddr_t → Nat
  ORCHESTRA_UNICAST_SENDER_BASED : Bool
  ORCHESTRA_COLLISION_FREE_HASH : Bool
  ORCHESTRA_UNICAST_PERIOD : Nat
  ORCHESTRA_MAX_HASH : Nat

/-- Line 66: `#define ALICE_MODE_1L_2S_3R 2` (1 link-based, 2 sender-based, 3 receiver-based). -/
def ALICE_MODE_1L_2S_3R : Nat := 2

/-- Modelled from the spec: the direction flags of a LinkEntry (can-transmit, can-receive,
shared-access-allowed) are distinct bits; the header defining `LINK_OPTION_TX` is not part of
the source file, the value is the one of the TSCH schedule header. -/
def LINK_OPTION_TX : Nat := 1

/-- Modelled from the spec: the can-receive flag of a LinkEntry, see `LINK_OPTION_TX`. -/
def LINK_OPTION_RX : Nat := 2

/-- Modelled from the spec: the shared-access-allowed flag of a LinkEntry, see
`LINK_OPTION_TX`. -/
def LINK_OPTION_SHARED : Nat := 4

/-- Modelled from the spec: frame type of an IEEE 802.15.4 data frame (the frame header is not
part of the source file); every other frame type is a different number. -/
def FRAME802154_DATAFRAME : Nat := 1

/-- Lines 50-54: the macro `UNICAST_SLOT_SHARED_FLAG`. -/
def UNICAST_SLOT_SHARED_FLAG (cfg : Config) : Nat :=
  if cfg.ORCHESTRA_UNICAST_SENDER_BASED && cfg.ORCHESTRA_COLLISION_FREE_HASH then
    (if cfg.ORCHESTRA_UNICAST_PERIOD < cfg.ORCHESTRA_MAX_HASH + 1 then LINK_OPTION_SHARED else 0)
  else LINK_OPTION_SHARED

/-- Line 71: `uint8_t link_option_rx = LINK_OPTION_RX`. -/
def link_option_rx : Nat := LINK_OPTION_RX % 256

/-- Line 72: `uint8_t link_option_tx = LINK_OPTION_TX | UNICAST_SLOT_SHARED_FLAG`. -/
def link_option_tx (cfg : Config) : Nat := (LINK_OPTION_TX ||| UNICAST_SLOT_SHARED_FLAG cfg) % 256

/-- Conversion of a C integer to `uint16_t`. -/
def toU16 (x : Int) : Nat := (x % 65536).toNat

/-! ## Hash-based slot locator (lines 78-142) -/

/-- Lines 78-92: timeslot of the upstream link from `addr1` to `addr2`. -/
def get_node_timeslot_us (cfg : Config) (addr1 addr2 : Option linkaddr_t) : Nat :=
  match addr1, addr2 with
  | some a1, some a2 =>
    if cfg.ALICE_UPSTREAM_PERIOD > 0 then
      if ALICE_MODE_1L_2S_3R = 1 then
        toU16 (Int.tmod (cfg.ORCHESTRA_LINKADDR_HASH2 a1 a2) cfg.ALICE_UPSTREAM_PERIOD)
      else if ALICE_MODE_1L_2S_3R = 2 then
        toU16 (Int.tmod (cfg.ORCHESTRA_LINKADDR_HASH a1) cfg.ALICE_UPSTREAM_PERIOD)
      else
        toU16 (Int.tmod (cfg.ORCHESTRA_LINKADDR_HASH a2) cfg.ALICE_UPSTREAM_PERIOD)
    else 0xffff
  | _, _ => 0xffff

/-- Lines 94-108: timeslot of the downstream link from `addr1` to `addr2`. -/
def get_node_timeslot_ds (cfg : Config) (addr1 addr2 : Option linkaddr_t) : Nat :=
  match addr1, addr2 with
  | some a1, some a2 =>
    if cfg.ALICE_DOWNSTREAM_PERIOD > 0 then
      if ALICE_MODE_1L_2S_3R = 1 then
        toU16 (Int.tmod (cfg.ORCHESTRA_LINKADDR_HASH2 a1 a2) cfg.ALICE_DOWNSTREAM_PERIOD
          + cfg.ALICE_UPSTREAM_PERIOD)
      else if ALICE_MODE_1L_2S_3R = 2 then
        toU16 (Int.tmod (cfg.ORCHESTRA_LINKADDR_HASH a1) cfg.ALICE_DOWNSTREAM_PERIOD
          + cfg.ALICE_UPSTREAM_PERIOD)
      else
        toU16 (Int.tmod (cfg.ORCHESTRA_LINKADDR_HASH a2) cfg.ALICE_DOWNSTREAM_PERIOD
          + cfg.ALICE_UPSTREAM_PERIOD)
    else 0xffff
  | _, _ => 0xffff

/-- Lines 110-125: channel offset of the upstream link from `addr1` to `addr2`. -/
def get_node_channel_offset_us (cfg : Config) (addr1 addr2 : Option linkaddr_t) : Nat :=
  match addr1, addr2 with
  | some a1, some a2 =>
    if cfg.num_ch > 0 then
      if ALICE_MODE_1L_2S_3R = 1 then
        toU16 (Int.tmod (cfg.ORCHESTRA_LINKADDR_HASH2 a1 a2) cfg.num_ch)
      else if ALICE_MODE_1L_2S_3R = 2 then
        toU16 (Int.tmod (cfg.ORCHESTRA_LINKADDR_HASH a1) cfg.num_ch)
      else
        toU16 (Int.tmod (cfg.ORCHESTRA_LINKADDR_HASH a2) cfg.num_ch)
    else 0
  | _, _ => 0

/-- Lines 127-142: channel offset of the downstream link from `addr1` to `addr2`. -/
def get_node_channel_offset_ds (cfg : Config) (addr1 addr2 : Option linkaddr_t) : Nat :=
  match addr1, addr2 with
  | some a1, some a2 =>
    if cfg.num_ch > 0 then
      if ALICE_MODE_1L_2S_3R = 1 then
        toU16 (Int.tmod (cfg.ORCHESTRA_LINKADDR_HASH2 a1 a2) cfg.num_ch)
      else if ALICE_MODE_1L_2S_3R = 2 then
        toU16 (Int.tmod (cfg.ORCHESTRA_LINKADDR_HASH a1) cfg.num_ch)
      else
        toU16 (Int.tmod (cfg.ORCHESTRA_LINKADDR_HASH a2) cfg.num_ch)
    else 0
  | _, _ => 0

/-! ## Slot-table engine and global state -/

/-- One installed link: the fields of `struct tsch_link` the rule chooses (every link is of
type `LINK_TYPE_NORMAL` and addressed to `tsch_broadcast_address`). -/
structure tsch_link where
  link_options : Nat
  timeslot : Nat
  channel_offset : Nat
deriving DecidableEq, Repr

/-- Slotframe `struct tsch_slotframe`: handle, size and the list of installed links in the
order of their installation. -/
structure tsch_slotframe where
  handle : Nat
  size : Nat
  links_list : List tsch_link
deriving DecidableEq, Repr

/-- Time-source neighbour `struct tsch_neighbor`: `ptr` identifies the object, `addr` is its
address field. A pointer to one is an `Option tsch_neighbor`. -/
structure tsch_neighbor where
  ptr : Nat
  addr : linkaddr_t
deriving DecidableEq, Repr

/-- Global variables read or written by the rule. `nbr_routes` lists the route next hops (the
children) in the iteration order of the neighbour table; `rpl_rank` is the rank of the current
DAG of the default RPL instance, `none` when there is no instance or no DAG. -/
structure State where
  slotframe_handle : Nat
  sf_unicast : tsch_slotframe
  linkaddr_node_addr : linkaddr_t
  orchestra_parent_linkaddr : linkaddr_t
  orchestra_parent_knows_us : Bool
  nbr_routes : List linkaddr_t
  rpl_rank : Option Nat
deriving DecidableEq, Repr

/-- Modelled from the spec: `createSchedule(handle, horizonSlots)` of the slot-table engine
(`tsch_schedule_add_slotframe`, not part of the source file) returns a schedule with no
installed link. -/
def tsch_schedule_add_slotframe (handle size : Nat) : tsch_slotframe :=
  { handle := handle, size := size, links_list := [] }

/-- Modelled from the spec: `installLink(schedule, options, destinationWildcard, timeslot,
channelOffset)` of the slot-table engine (`tsch_schedule_add_link`, not part of the source
file) adds one LinkEntry with the given options, timeslot and channel offset after the links
already installed. -/
def tsch_schedule_add_link (sf : tsch_slotframe) (link_options timeslot channel_offset : Nat) :
    tsch_slotframe :=
  { sf with links_list := sf.links_list ++ [⟨link_options, timeslot, channel_offset⟩] }

/-- Modelled from the spec: `removeLink(schedule, link)` of the slot-table engine
(`tsch_schedule_remove_link`, not part of the source file) takes the given link out of the
installed links. -/
def tsch_schedule_remove_link (sf : tsch_slotframe) (l : tsch_link) : tsch_slotframe :=
  { sf with links_list := sf.links_list.erase l }

/-- First element of a list, `NULL` (`none`) for the empty list (`list_head`). -/
def list_head (l : List tsch_link) : Option tsch_link := l.head?

/-! ## Schedule synthesizer (lines 144-213) -/

/-- Lines 144-152: parity of the rank of the current DAG, 0 when there is none. -/
def rank_even_odd (s : State) : Nat :=
  match s.rpl_rank with
  | some rank => ((rank % 65536) % 2) % 65536
  | none => 0

/-- Lines 165-169: the loop removing the head link until the list is empty; `fuel` bounds the
number of iterations. -/
def remove_links_loop : Nat → tsch_slotframe → tsch_slotframe
  | 0, sf => sf
  | fuel + 1, sf =>
    match list_head sf.links_list with
    | none => sf
    | some l => remove_links_loop fuel (tsch_schedule_remove_link sf l)

/-- Lines 184-208: the body of the loop over the route next hops, for the child `addr`. -/
def schedule_child (cfg : Config) (self : linkaddr_t)
    (timeslot_us_p timeslot_ds_p channel_offset_us_p channel_offset_ds_p : Nat)
    (sf : tsch_slotframe) (addr : linkaddr_t) : tsch_slotframe :=
  let timeslot_us := get_node_timeslot_us cfg (some addr) (some self)
  let timeslot_ds := get_node_timeslot_ds cfg (some self) (some addr)
  let channel_offset_us := get_node_channel_offset_us cfg (some addr) (some self)
  let channel_offset_ds := get_node_channel_offset_ds cfg (some self) (some addr)
  let link_option_up :=
    if timeslot_us = timeslot_us_p ∧ channel_offset_us = channel_offset_us_p then
      link_option_tx cfg ||| link_option_rx
    else link_option_rx
  let link_option_down :=
    if timeslot_ds = timeslot_ds_p ∧ channel_offset_ds = channel_offset_ds_p then
      link_option_rx ||| link_option_tx cfg
    else link_option_tx cfg
  let sf1 := tsch_schedule_add_link sf link_option_up timeslot_us channel_offset_us
  tsch_schedule_add_link sf1 link_option_down timeslot_ds channel_offset_ds

/-- Lines 154-213: remove every installed link, install the parent pair, then one upstream and
one downstream link per child. The removal loop gets as much fuel as there are installed
links. -/
def schedule_unicast_slotframe (cfg : Config) (s : State) : State :=
  let sf0 := remove_links_loop s.sf_unicast.links_list.length s.sf_unicast
  let self := s.linkaddr_node_addr
  let parent := s.orchestra_parent_linkaddr
  let timeslot_us_p := get_node_timeslot_us cfg (some self) (some parent)
  let timeslot_ds_p := get_node_timeslot_ds cfg (some parent) (some self)
  let channel_offset_us_p := get_node_channel_offset_us cfg (some self) (some parent)
  let channel_offset_ds_p := get_node_channel_offset_ds cfg (some parent) (some self)
  let link_option_up := link_option_tx cfg
  let link_option_down := link_option_rx
  let sf1 := tsch_schedule_add_link sf0 link_option_up timeslot_us_p channel_offset_us_p
  let sf2 := tsch_schedule_add_link sf1 link_option_down timeslot_ds_p channel_offset_ds_p
  let sf3 := s.nbr_routes.foldl
    (schedule_child cfg self timeslot_us_p timeslot_ds_p channel_offset_us_p channel_offset_ds_p)
    sf2
  { s with sf_unicast := sf3 }

/-! ## Topology change dispatcher and packet slot selector (lines 214-316) -/

/-- Lines 215-219: the rank-parity callback rebuilds the schedule. -/
def orchestra_callback_rank_even_odd_changed (cfg : Config) (_a _b : Nat) (s : State) : State :=
  schedule_unicast_slotframe cfg s

/-- Lines 227-240: does the rule have a unicast link to `linkaddr`. -/
def neighbor_has_uc_link (cfg : Config) (s : State) (linkaddr : Option linkaddr_t) : Nat :=
  match linkaddr with
  | some a =>
    if !linkaddr_cmp a linkaddr_null then
      if (s.orchestra_parent_knows_us || !cfg.ORCHESTRA_UNICAST_SENDER_BASED)
          && linkaddr_cmp s.orchestra_parent_linkaddr a then 1
      else if a ∈ s.nbr_routes then 1
      else 0
    else 0
  | none => 0

/-- Lines 242-246: `child_added` rebuilds the schedule. -/
def child_added (cfg : Config) (_linkaddr : Option linkaddr_t) (s : State) : State :=
  schedule_unicast_slotframe cfg s

/-- Lines 248-252: `child_removed` rebuilds the schedule. -/
def child_removed (cfg : Config) (_linkaddr : Option linkaddr_t) (s : State) : State :=
  schedule_unicast_slotframe cfg s

/-- Result of `select_packet`: the return value and the contents of the three output cells
(`none` for a `NULL` output pointer). -/
structure SelectResult where
  ret : Nat
  slotframe : Option Nat
  timeslot : Option Nat
  channel_offset : Option Nat
deriving DecidableEq, Repr

/-- Lines 259-287: `frame_type` and `dest` are the packet buffer's frame type attribute and
receiver address; each output argument is `none` for `NULL` or `some v` for a pointer to a
cell holding `v`. -/
def select_packet (cfg : Config) (s : State) (frame_type : Nat) (dest : linkaddr_t)
    (slotframe timeslot channel_offset : Option Nat) : SelectResult :=
  if frame_type = FRAME802154_DATAFRAME ∧ neighbor_has_uc_link cfg s (some dest) ≠ 0 then
    { ret := 1
      slotframe := slotframe.map (fun _ => s.slotframe_handle)
      timeslot := timeslot.map (fun _ =>
        if linkaddr_cmp s.orchestra_parent_linkaddr dest then
          get_node_timeslot_us cfg (some s.linkaddr_node_addr) (some dest)
        else get_node_timeslot_ds cfg (some s.linkaddr_node_addr) (some dest))
      channel_offset := channel_offset.map (fun _ =>
        if linkaddr_cmp s.orchestra_parent_linkaddr dest then
          get_node_channel_offset_us cfg (some s.linkaddr_node_addr) (some dest)
        else get_node_channel_offset_ds cfg (some s.linkaddr_node_addr) (some dest)) }
  else
    { ret := 0, slotframe := slotframe, timeslot := timeslot, channel_offset := channel_offset }

/-- Lines 289-301: a change of time source updates the parent address and rebuilds. -/
def new_time_source (cfg : Config) (old new : Option tsch_neighbor) (s : State) : State :=
  if new ≠ old then
    let new_addr : Option linkaddr_t := new.map (fun n => n.addr)
    let s1 : State :=
      match new_addr with
      | some a => { s with orchestra_parent_linkaddr := a }
      | none => { s with orchestra_parent_linkaddr := linkaddr_null }
    schedule_unicast_slotframe cfg s1
  else s

/-- Lines 303-316: create the slotframe and install the parent pair. -/
def init (cfg : Config) (sf_handle : Nat) (s : State) : State :=
  let s1 : State := { s with slotframe_handle := sf_handle }
  let sf := tsch_schedule_add_slotframe s1.slotframe_handle cfg.ORCHESTRA_UNICAST_PERIOD
  let self := s1.linkaddr_node_addr
  let parent := s1.orchestra_parent_linkaddr
  let timeslot_us := get_node_timeslot_us cfg (some self) (some parent)
  let timeslot_ds := get_node_timeslot_ds cfg (some parent) (some self)
  let channel_offset_us := get_node_channel_offset_us cfg (some self) (some parent)
  let channel_offset_ds := get_node_channel_offset_ds cfg (some parent) (some self)
  let sf1 := tsch_schedule_add_link sf (link_option_tx cfg) timeslot_us channel_offset_us
  let sf2 := tsch_schedule_add_link sf1 link_option_rx timeslot_ds channel_offset_ds
  { s1 with sf_unicast := sf2 }

/-- Sample configuration of Scenario A: both periods 5, four channels, hash of an address is
its number, shared flag unconditional. -/
def cfgA : Config where
  ALICE_UPSTREAM_PERIOD := 5
  ALICE_DOWNSTREAM_PERIOD := 5
  num_ch := 4
  ORCHESTRA_LINKADDR_HASH := fun a => a.id
  ORCHESTRA_LINKADDR_HASH2 := fun a b => a.id + 256 * b.id
  ORCHESTRA_UNICAST_SENDER_BASED := false
  ORCHESTRA_COLLISION_FREE_HASH := false
  ORCHESTRA_UNICAST_PERIOD := 10
  ORCHESTRA_MAX_HASH := 0x7fff

/-- Configuration with the largest upstream period a 16-bit slot count allows and a downstream
period of one slot; hash of an address is its number. -/
def cfgWide : Config where
  ALICE_UPSTREAM_PERIOD := 65535
  ALICE_DOWNSTREAM_PERIOD := 1
  num_ch := 4
  ORCHESTRA_LINKADDR_HASH := fun a => a.id
  ORCHESTRA_LINKADDR_HASH2 := fun a b => a.id + 256 * b.id
  ORCHESTRA_UNICAST_SENDER_BASED := false
  ORCHESTRA_COLLISION_FREE_HASH := false
  ORCHESTRA_UNICAST_PERIOD := 65536
  ORCHESTRA_MAX_HASH := 0x7fff

/-! ## Closed form of the link list a rebuild installs -/

/-- The parent pair in the order lines 178-179 install it. -/
def parent_links (cfg : Config) (self parent : linkaddr_t) : List tsch_link :=
  [ ⟨link_option_tx cfg, get_node_timeslot_us cfg (some self) (some parent),
      get_node_channel_offset_us cfg (some self) (some parent)⟩,
    ⟨link_option_rx, get_node_timeslot_ds cfg (some parent) (some self),
      get_node_channel_offset_ds cfg (some parent) (some self)⟩ ]

/-- The upstream link that lines 187-207 install for the child `addr`. -/
def child_up_link (cfg : Config) (self parent addr : linkaddr_t) : tsch_link :=
  ⟨if get_node_timeslot_us cfg (some addr) (some self)
        = get_node_timeslot_us cfg (some self) (some parent) ∧
      get_node_channel_offset_us cfg (some addr) (some self)
        = get_node_channel_offset_us cfg (some self) (some parent)
    then link_option_tx cfg ||| link_option_rx else link_option_rx,
   get_node_timeslot_us cfg (some addr) (some self),
   get_node_channel_offset_us cfg (some addr) (some self)⟩

/-- The downstream link that lines 188-208 install for the child `addr`. -/
def child_down_link (cfg : Config) (self parent addr : linkaddr_t) : tsch_link :=
  ⟨if get_node_timeslot_ds cfg (some self) (some addr)
        = get_node_timeslot_ds cfg (some parent) (some self) ∧
      get_node_channel_offset_ds cfg (some self) (some addr)
        = get_node_channel_offset_ds cfg (some parent) (some self)
    then link_option_rx ||| link_option_tx cfg else link_option_tx cfg,
   get_node_timeslot_ds cfg (some self) (some addr),
   get_node_channel_offset_ds cfg (some self) (some addr)⟩

/-- All links of one rebuild: the parent pair, then the pair of every child in table order. -/
def installed_links (cfg : Config) (self parent : linkaddr_t) (children : List linkaddr_t) :
    List tsch_link :=
  parent_links cfg self parent
    ++ children.flatMap (fun c => [child_up_link cfg self parent c, child_down_link cfg self parent c])

/-- Does the option byte `opts` have every bit of `flag` set. -/
def has_flag (opts flag : Nat) : Bool := opts &&& flag == flag

/-- Sample state of Scenario A: node 7 with parent 2 and the children 27 and 9, one stale link
installed. -/
def stateA : State where
  slotframe_handle := 1
  sf_unicast := { handle := 1, size := 10, links_list := [⟨2, 3, 1⟩] }
  linkaddr_node_addr := ⟨7⟩
  orchestra_parent_linkaddr := ⟨2⟩
  orchestra_parent_knows_us := true
  nbr_routes := [⟨27⟩, ⟨9⟩]
  rpl_rank := some 512

/-- Sample state of Scenario B: node 7 without parent (`linkaddr_null`) and without children,
nothing installed. -/
def stateB : State where
  slotframe_handle := 1
  sf_unicast := { handle := 1, size := 10, links_list := [] }
  linkaddr_node_addr := ⟨7⟩
  orchestra_parent_linkaddr := linkaddr_null
  orchestra_parent_knows_us := false
  nbr_routes := []
  rpl_rank := none

/-- Configuration of Scenario D: upstream period 5, downstream period 0 (disabled), four
channels, hash of an address is its number. -/
def cfgD : Config where
  ALICE_UPSTREAM_PERIOD := 5
  ALICE_DOWNSTREAM_PERIOD := 0
  num_ch := 4
  ORCHESTRA_LINKADDR_HASH := fun a => a.id
  ORCHESTRA_LINKADDR_HASH2 := fun a b => a.id + 256 * b.id
  ORCHESTRA_UNICAST_SENDER_BASED := false
  ORCHESTRA_COLLISION_FREE_HASH := false
  ORCHESTRA_UNICAST_PERIOD := 5
  ORCHESTRA_MAX_HASH := 0x7fff

/-- Configuration like Scenario A but with `ORCHESTRA_UNICAST_SENDER_BASED` set. -/
def cfgS : Config where
  ALICE_UPSTREAM_PERIOD := 5
  ALICE_DOWNSTREAM_PERIOD := 5
  num_ch := 4
  ORCHESTRA_LINKADDR_HASH := fun a => a.id
  ORCHESTRA_LINKADDR_HASH2 := fun a b => a.id + 256 * b.id
  ORCHESTRA_UNICAST_SENDER_BASED := true
  ORCHESTRA_COLLISION_FREE_HASH := false
  ORCHESTRA_UNICAST_PERIOD := 10
  ORCHESTRA_MAX_HASH := 0x7fff

/-- Sample state: node 7 with parent 2 that has not yet learnt of this node
(`orchestra_parent_knows_us` is 0), no child. -/
def stateS : State where
  slotframe_handle := 1
  sf_unicast := { handle := 1, size := 10, links_list := [] }
  linkaddr_node_addr := ⟨7⟩
  orchestra_parent_linkaddr := ⟨2⟩
  orchestra_parent_knows_us := false
  nbr_routes := []
  rpl_rank := none

/-- Configuration that is sender-based with collision-free hashing, where the hashing space
`ORCHESTRA_MAX_HASH + 1 = 5` is smaller than the period 10. -/
def cfgC : Config where
  ALICE_UPSTREAM_PERIOD := 5
  ALICE_DOWNSTREAM_PERIOD := 5
  num_ch := 4
  ORCHESTRA_LINKADDR_HASH := fun a => a.id
  ORCHESTRA_LINKADDR_HASH2 := fun a b => a.id + 256 * b.id
  ORCHESTRA_UNICAST_SENDER_BASED := true
  ORCHESTRA_COLLISION_FREE_HASH := true
  ORCHESTRA_UNICAST_PERIOD := 10
  ORCHESTRA_MAX_HASH := 4

/-- Lines 165-169 with the engine's removal call as a parameter and a counter of the calls
made: `none` when `fuel` iterations do not reach the end of the loop, otherwise the slotframe
at loop exit and the number of `remove` calls. -/
def remove_links_run (remove : tsch_slotframe → tsch_link → tsch_slotframe) :
    Nat → tsch_slotframe → Option (tsch_slotframe × Nat)
  | 0, _ => none
  | fuel + 1, sf =>
    match list_head sf.links_list with
    | none => some (sf, 0)
    | some l => (remove_links_run remove fuel (remove sf l)).map (fun r => (r.1, r.2 + 1))

/-- Configuration whose periods 65535 and 2 add up to more than a 16-bit result holds; hash
of an address is its number. -/
def cfgWrap : Config where
  ALICE_UPSTREAM_PERIOD := 65535
  ALICE_DOWNSTREAM_PERIOD := 2
  num_ch := 4
  ORCHESTRA_LINKADDR_HASH := fun a => a.id
  ORCHESTRA_LINKADDR_HASH2 := fun a b => a.id + 256 * b.id
  ORCHESTRA_UNICAST_SENDER_BASED := false
  ORCHESTRA_COLLISION_FREE_HASH := false
  ORCHESTRA_UNICAST_PERIOD := 65537
  ORCHESTRA_MAX_HASH := 0x7fff

/-- Configuration with a hopping sequence of 70000 entries, more than a 16-bit result holds;
hash of an address is its number. -/
def cfgLongSeq : Config where
  ALICE_UPSTREAM_PERIOD := 5
  ALICE_DOWNSTREAM_PERIOD := 5
  num_ch := 70000
  ORCHESTRA_LINKADDR_HASH := fun a => a.id
  ORCHESTRA_LINKADDR_HASH2 := fun a b => a.id + 256 * b.id
  ORCHESTRA_UNICAST_SENDER_BASED := false
  ORCHESTRA_COLLISION_FREE_HASH := false
  ORCHESTRA_UNICAST_PERIOD := 10
  ORCHESTRA_MAX_HASH := 0x7fff

/-! ## Arithmetic of the 16-bit conversion -/

theorem tmod_hash_eq_emod (h : Nat) (p : Int) (hp : 0 < p) : Int.tmod (h : Int) p = (h : Int) % p :=
  Int.tmod_eq_emod (Int.ofNat_nonneg h) (le_of_lt hp)

theorem toU16_lt (x : Int) : toU16 x < 65536 := by
  unfold toU16; omega

theorem toU16_of_lt (x : Int) (h0 : 0 ≤ x) (h1 : x < 65536) : ((toU16 x : Nat) : Int) = x := by
  unfold toU16; omega

theorem toU16_le (x : Int) (h0 : 0 ≤ x) : ((toU16 x : Nat) : Int) ≤ x := by
  unfold toU16; omega

theorem hash_emod_nonneg (h : Nat) (p : Int) (hp : 0 < p) : 0 ≤ (h : Int) % p :=
  Int.emod_nonneg _ (ne_of_gt hp)

theorem hash_emod_lt (h : Nat) (p : Int) (hp : 0 < p) : (h : Int) % p < p :=
  Int.emod_lt_of_pos _ hp

/-! ## Closed forms of the locator under the compiled policy -/

theorem timeslot_us_some (cfg : Config) (a b : linkaddr_t) (hU : 0 < cfg.ALICE_UPSTREAM_PERIOD) :
    get_node_timeslot_us cfg (some a) (some b)
      = toU16 ((cfg.ORCHESTRA_LINKADDR_HASH a : Int) % cfg.ALICE_UPSTREAM_PERIOD) := by
  simp [get_node_timeslot_us, ALICE_MODE_1L_2S_3R, hU, tmod_hash_eq_emod]

theorem timeslot_ds_some (cfg : Config) (a b : linkaddr_t) (hD : 0 < cfg.ALICE_DOWNSTREAM_PERIOD) :
    get_node_timeslot_ds cfg (some a) (some b)
      = toU16 ((cfg.ORCHESTRA_LINKADDR_HASH a : Int) % cfg.ALICE_DOWNSTREAM_PERIOD
          + cfg.ALICE_UPSTREAM_PERIOD) := by
  simp [get_node_timeslot_ds, ALICE_MODE_1L_2S_3R, hD, tmod_hash_eq_emod]

theorem timeslot_us_nonpos (cfg : Config) (a1 a2 : Option linkaddr_t)
    (hU : cfg.ALICE_UPSTREAM_PERIOD ≤ 0) : get_node_timeslot_us cfg a1 a2 = 0xffff := by
  have h : ¬ (cfg.ALICE_UPSTREAM_PERIOD > 0) := by omega
  cases a1 <;> cases a2 <;> simp [get_node_timeslot_us, h]

theorem timeslot_ds_nonpos (cfg : Config) (a1 a2 : Option linkaddr_t)
    (hD : cfg.ALICE_DOWNSTREAM_PERIOD ≤ 0) : get_node_timeslot_ds cfg a1 a2 = 0xffff := by
  have h : ¬ (cfg.ALICE_DOWNSTREAM_PERIOD > 0) := by omega
  cases a1 <;> cases a2 <;> simp [get_node_timeslot_ds, h]

theorem timeslot_us_lt (cfg : Config) (a b : linkaddr_t) (hU : 0 < cfg.ALICE_UPSTREAM_PERIOD) :
    (get_node_timeslot_us cfg (some a) (some b) : Int) < cfg.ALICE_UPSTREAM_PERIOD := by
  rw [timeslot_us_some cfg a b hU]
  have h0 := hash_emod_nonneg (cfg.ORCHESTRA_LINKADDR_HASH a) _ hU
  have h1 := hash_emod_lt (cfg.ORCHESTRA_LINKADDR_HASH a) _ hU
  have h2 := toU16_le _ h0
  omega

theorem timeslot_ne_invalid (cfg : Config) (a b c d : linkaddr_t)
    (hU : 0 < cfg.ALICE_UPSTREAM_PERIOD) (hD : 0 < cfg.ALICE_DOWNSTREAM_PERIOD)
    (hH : cfg.ALICE_UPSTREAM_PERIOD + cfg.ALICE_DOWNSTREAM_PERIOD ≤ 0xffff) :
    get_node_timeslot_us cfg (some a) (some b) ≠ 0xffff ∧
    get_node_timeslot_ds cfg (some c) (some d) ≠ 0xffff := by
  have hus := timeslot_us_lt cfg a b hU
  have h0 := hash_emod_nonneg (cfg.ORCHESTRA_LINKADDR_HASH c) _ hD
  have h1 := hash_emod_lt (cfg.ORCHESTRA_LINKADDR_HASH c) _ hD
  have hds : (get_node_timeslot_ds cfg (some c) (some d) : Int)
      = (cfg.ORCHESTRA_LINKADDR_HASH c : Int) % cfg.ALICE_DOWNSTREAM_PERIOD
          + cfg.ALICE_UPSTREAM_PERIOD := by
    rw [timeslot_ds_some cfg c d hD]
    exact toU16_of_lt _ (by omega) (by omega)
  refine ⟨?_, ?_⟩
  · intro he
    rw [he] at hus
    omega
  · intro he
    rw [he] at hds
    omega

/-! ## The rebuild in closed form -/

theorem remove_links_loop_empty (fuel : Nat) (sf : tsch_slotframe)
    (h : sf.links_list.length ≤ fuel) :
    remove_links_loop fuel sf = { sf with links_list := [] } := by
  induction fuel generalizing sf with
  | zero =>
    obtain ⟨hd, sz, ls⟩ := sf
    have : ls = [] := List.length_eq_zero.mp (Nat.le_zero.mp h)
    subst this
    rfl
  | succ n ih =>
    obtain ⟨hd, sz, ls⟩ := sf
    cases ls with
    | nil => rfl
    | cons l t =>
      have ht : t.length ≤ n := by simpa using h
      simp only [remove_links_loop, list_head, List.head?_cons, tsch_schedule_remove_link,
        List.erase_cons_head]
      rw [ih _ ht]

theorem foldl_schedule_child (cfg : Config) (self parent : linkaddr_t)
    (children : List linkaddr_t) (sf : tsch_slotframe) :
    children.foldl
        (schedule_child cfg self
          (get_node_timeslot_us cfg (some self) (some parent))
          (get_node_timeslot_ds cfg (some parent) (some self))
          (get_node_channel_offset_us cfg (some self) (some parent))
          (get_node_channel_offset_ds cfg (some parent) (some self))) sf
      = { sf with
          links_list := sf.links_list ++ children.flatMap
            (fun c => [child_up_link cfg self parent c, child_down_link cfg self parent c]) } := by
  induction children generalizing sf with
  | nil => simp
  | cons c cs ih =>
    rw [List.foldl_cons, ih]
    simp [schedule_child, tsch_schedule_add_link, child_up_link, child_down_link]

theorem schedule_unicast_slotframe_eq (cfg : Config) (s : State) :
    schedule_unicast_slotframe cfg s
      = { s with
          sf_unicast :=
            { s.sf_unicast with
              links_list := installed_links cfg s.linkaddr_node_addr
                s.orchestra_parent_linkaddr s.nbr_routes } } := by
  unfold schedule_unicast_slotframe
  simp only [remove_links_loop_empty _ _ (le_refl _), foldl_schedule_child]
  simp [tsch_schedule_add_link, installed_links, parent_links]

theorem schedule_unicast_slotframe_links (cfg : Config) (s : State) :
    (schedule_unicast_slotframe cfg s).sf_unicast.links_list
      = installed_links cfg s.linkaddr_node_addr s.orchestra_parent_linkaddr s.nbr_routes := by
  rw [schedule_unicast_slotframe_eq]

theorem flatMap_pair_even {α β : Type} (f g : α → β) (l : List α) (i : Nat) :
    (l.flatMap (fun c => [f c, g c]))[2 * i]? = l[i]?.map f := by
  induction l generalizing i with
  | nil => simp
  | cons c cs ih =>
    cases i with
    | zero => simp
    | succ n =>
      have h2 : 2 * (n + 1) = 2 * n + 1 + 1 := by omega
      rw [h2]
      simp [ih]

theorem flatMap_pair_odd {α β : Type} (f g : α → β) (l : List α) (i : Nat) :
    (l.flatMap (fun c => [f c, g c]))[2 * i + 1]? = l[i]?.map g := by
  induction l generalizing i with
  | nil => simp
  | cons c cs ih =>
    cases i with
    | zero => simp
    | succ n =>
      have h2 : 2 * (n + 1) + 1 = (2 * n + 1) + 1 + 1 := by omega
      rw [h2]
      simp [ih]

theorem installed_links_child_up (cfg : Config) (self parent : linkaddr_t)
    (children : List linkaddr_t) (i : Nat) :
    (installed_links cfg self parent children)[2 + 2 * i]?
      = children[i]?.map (child_up_link cfg self parent) := by
  have h : 2 + 2 * i = 2 * i + 1 + 1 := by omega
  rw [h]
  simp [installed_links, parent_links, flatMap_pair_even]

theorem installed_links_child_down (cfg : Config) (self parent : linkaddr_t)
    (children : List linkaddr_t) (i : Nat) :
    (installed_links cfg self parent children)[3 + 2 * i]?
      = children[i]?.map (child_down_link cfg self parent) := by
  have h : 3 + 2 * i = (2 * i + 1) + 1 + 1 := by omega
  rw [h]
  simp [installed_links, parent_links, flatMap_pair_odd]

theorem installed_links_length (cfg : Config) (self parent : linkaddr_t)
    (children : List linkaddr_t) :
    (installed_links cfg self parent children).length = 2 + 2 * children.length := by
  induction children with
  | nil => simp [installed_links, parent_links]
  | cons c cs ih =>
    simp only [installed_links, List.length_append, List.flatMap_cons, List.length_cons,
      List.length_nil] at ih ⊢
    omega

theorem link_option_tx_cases (cfg : Config) : link_option_tx cfg = 5 ∨ link_option_tx cfg = 1 := by
  unfold link_option_tx UNICAST_SLOT_SHARED_FLAG
  split
  · split
    · left; decide
    · right; decide
  · left; decide

theorem init_links (cfg : Config) (h : Nat) (s : State) :
    (init cfg h s).sf_unicast.links_list
      = parent_links cfg s.linkaddr_node_addr s.orchestra_parent_linkaddr := by
  simp [init, tsch_schedule_add_slotframe, tsch_schedule_add_link, parent_links]

theorem installed_links_parent_up (cfg : Config) (self parent : linkaddr_t)
    (children : List linkaddr_t) :
    (installed_links cfg self parent children)[0]?
      = some ⟨link_option_tx cfg, get_node_timeslot_us cfg (some self) (some parent),
          get_node_channel_offset_us cfg (some self) (some parent)⟩ := by
  simp [installed_links, parent_links]

theorem installed_links_parent_down (cfg : Config) (self parent : linkaddr_t)
    (children : List linkaddr_t) :
    (installed_links cfg self parent children)[1]?
      = some ⟨link_option_rx, get_node_timeslot_ds cfg (some parent) (some self),
          get_node_channel_offset_ds cfg (some parent) (some self)⟩ := by
  simp [installed_links, parent_links]

theorem select_packet_ret (cfg : Config) (s : State) (frame_type : Nat) (dest : linkaddr_t)
    (slotframe timeslot channel_offset : Option Nat) :
    (select_packet cfg s frame_type dest slotframe timeslot channel_offset).ret
      = if frame_type = FRAME802154_DATAFRAME ∧ neighbor_has_uc_link cfg s (some dest) ≠ 0
        then 1 else 0 := by
  unfold select_packet
  split <;> rfl

theorem neighbor_has_uc_link_iff (cfg : Config) (s : State) (dest : linkaddr_t) :
    neighbor_has_uc_link cfg s (some dest) ≠ 0 ↔
      (dest ≠ linkaddr_null ∧
        (((s.orchestra_parent_knows_us = true ∨ cfg.ORCHESTRA_UNICAST_SENDER_BASED = false) ∧
            dest = s.orchestra_parent_linkaddr) ∨ dest ∈ s.nbr_routes)) := by
  unfold neighbor_has_uc_link linkaddr_cmp
  by_cases hp : dest = s.orchestra_parent_linkaddr
  · subst hp
    by_cases hn : s.orchestra_parent_linkaddr = linkaddr_null <;>
    by_cases hm : s.orchestra_parent_linkaddr ∈ s.nbr_routes <;>
    cases hk : s.orchestra_parent_knows_us <;>
    cases hb : cfg.ORCHESTRA_UNICAST_SENDER_BASED <;>
    simp [hn, hm]
  · have hp2 : ¬ s.orchestra_parent_linkaddr = dest := fun h => hp h.symm
    by_cases hn : dest = linkaddr_null <;>
    by_cases hm : dest ∈ s.nbr_routes <;>
    simp [hn, hm, hp, hp2]

theorem channel_offset_us_some (cfg : Config) (a b : linkaddr_t) (hN : 0 < cfg.num_ch) :
    get_node_channel_offset_us cfg (some a) (some b)
      = (cfg.ORCHESTRA_LINKADDR_HASH a % cfg.num_ch) % 65536 := by
  have ht : Int.tmod (cfg.ORCHESTRA_LINKADDR_HASH a : Int) (cfg.num_ch : Int)
      = ((cfg.ORCHESTRA_LINKADDR_HASH a % cfg.num_ch : Nat) : Int) := rfl
  have h1 : get_node_channel_offset_us cfg (some a) (some b)
      = toU16 (Int.tmod (cfg.ORCHESTRA_LINKADDR_HASH a : Int) (cfg.num_ch : Int)) := by
    simp [get_node_channel_offset_us, ALICE_MODE_1L_2S_3R, hN]
  rw [h1, ht]
  unfold toU16
  omega

theorem channel_offset_us_eq_ds (cfg : Config) (a1 a2 : Option linkaddr_t) :
    get_node_channel_offset_us cfg a1 a2 = get_node_channel_offset_ds cfg a1 a2 := by
  cases a1 <;> cases a2 <;> rfl

theorem child_down_link_const (cfg : Config) (self parent c1 c2 : linkaddr_t) :
    child_down_link cfg self parent c1 = child_down_link cfg self parent c2 := by
  simp [child_down_link, get_node_timeslot_ds, get_node_channel_offset_ds, ALICE_MODE_1L_2S_3R]

theorem remove_links_run_generic (remove : tsch_slotframe → tsch_link → tsch_slotframe)
    (hrem : ∀ (sf : tsch_slotframe) (l : tsch_link),
      (remove sf l).links_list = sf.links_list.erase l)
    (fuel : Nat) (sf : tsch_slotframe) (h : sf.links_list.length < fuel) :
    ∃ sf2 : tsch_slotframe,
      remove_links_run remove fuel sf = some (sf2, sf.links_list.length) ∧
      sf2.links_list = [] := by
  induction fuel generalizing sf with
  | zero => omega
  | succ n ih =>
    rcases hl : sf.links_list with _ | ⟨l, t⟩
    · exact ⟨sf, by simp [remove_links_run, list_head, hl], hl⟩
    · have hr : (remove sf l).links_list = t := by
        rw [hrem, hl, List.erase_cons_head]
      have hlen : (remove sf l).links_list.length < n := by
        rw [hr]
        rw [hl] at h
        simp only [List.length_cons] at h
        omega
      obtain ⟨sf2, h1, h2⟩ := ih (remove sf l) hlen
      refine ⟨sf2, ?_, h2⟩
      simp [remove_links_run, list_head, hl, h1, hr]

theorem remove_links_run_engine (fuel : Nat) (sf : tsch_slotframe)
    (h : sf.links_list.length < fuel) :
    remove_links_run tsch_schedule_remove_link fuel sf
      = some ({ sf with links_list := [] }, sf.links_list.length) := by
  induction fuel generalizing sf with
  | zero => omega
  | succ n ih =>
    obtain ⟨hd, sz, ls⟩ := sf
    cases ls with
    | nil => rfl
    | cons l t =>
      have ht : t.length < n := by simpa using h
      simp only [remove_links_run, list_head, List.head?_cons, tsch_schedule_remove_link,
        List.erase_cons_head]
      rw [ih _ ht]
      rfl

theorem select_packet_slotframe (cfg : Config) (s : State) (frame_type : Nat)
    (dest : linkaddr_t) (slotframe timeslot channel_offset : Option Nat)
    (hret : (select_packet cfg s frame_type dest slotframe timeslot channel_offset).ret = 1) :
    (select_packet cfg s frame_type dest slotframe timeslot channel_offset).slotframe
      = slotframe.map (fun _ => s.slotframe_handle) := by
  unfold select_packet at hret ⊢
  split
  · rfl
  · rename_i hn
    rw [if_neg hn] at hret
    exact absurd hret (Nat.zero_ne_one)

/-! ## Claims -/

/-- C1 as stated fails: with the positive periods 65535 (upstream) and 2 (downstream) the
downstream timeslot of the sender 1 is 0, the 16-bit value of the claimed number
`1 mod 2 + 65535 = 65536`. -/
theorem C1_sender_based_timeslot_counterexample :
    ¬ (∀ (cfg : Config) (a b : linkaddr_t),
        (0 < cfg.ALICE_UPSTREAM_PERIOD →
          (get_node_timeslot_us cfg (some a) (some b) : Int)
            = (cfg.ORCHESTRA_LINKADDR_HASH a : Int) % cfg.ALICE_UPSTREAM_PERIOD) ∧
        (0 < cfg.ALICE_DOWNSTREAM_PERIOD →
          (get_node_timeslot_ds cfg (some a) (some b) : Int)
            = (cfg.ORCHESTRA_LINKADDR_HASH a : Int) % cfg.ALICE_DOWNSTREAM_PERIOD
                + cfg.ALICE_UPSTREAM_PERIOD)) := by
  intro h
  have h1 := (h cfgWrap ⟨1⟩ ⟨9⟩).2 (by decide)
  revert h1
  decide

/-- C1 amended: under the compiled sender-based policy, for present addresses `a` (sender) and
`b` (receiver), the upstream timeslot is `hash(a) mod UpstreamPeriod` reduced modulo `2 ^ 16`
when the upstream period is positive, and exactly `hash(a) mod UpstreamPeriod` when the
upstream period is moreover at most 65536; the downstream timeslot is
`(hash(a) mod DownstreamPeriod) + UpstreamPeriod` reduced modulo `2 ^ 16` when the downstream
period is positive, and exactly that number when moreover the upstream period is not negative
and the two periods add up to at most 65536; neither result depends on the receiver. -/
theorem C1_sender_based_timeslot (cfg : Config) (a b : linkaddr_t) :
    (0 < cfg.ALICE_UPSTREAM_PERIOD →
      get_node_timeslot_us cfg (some a) (some b)
        = toU16 ((cfg.ORCHESTRA_LINKADDR_HASH a : Int) % cfg.ALICE_UPSTREAM_PERIOD)) ∧
    (0 < cfg.ALICE_DOWNSTREAM_PERIOD →
      get_node_timeslot_ds cfg (some a) (some b)
        = toU16 ((cfg.ORCHESTRA_LINKADDR_HASH a : Int) % cfg.ALICE_DOWNSTREAM_PERIOD
            + cfg.ALICE_UPSTREAM_PERIOD)) ∧
    (0 < cfg.ALICE_UPSTREAM_PERIOD → cfg.ALICE_UPSTREAM_PERIOD ≤ 65536 →
      (get_node_timeslot_us cfg (some a) (some b) : Int)
        = (cfg.ORCHESTRA_LINKADDR_HASH a : Int) % cfg.ALICE_UPSTREAM_PERIOD) ∧
    (0 < cfg.ALICE_DOWNSTREAM_PERIOD → 0 ≤ cfg.ALICE_UPSTREAM_PERIOD →
      cfg.ALICE_UPSTREAM_PERIOD + cfg.ALICE_DOWNSTREAM_PERIOD ≤ 65536 →
      (get_node_timeslot_ds cfg (some a) (some b) : Int)
        = (cfg.ORCHESTRA_LINKADDR_HASH a : Int) % cfg.ALICE_DOWNSTREAM_PERIOD
            + cfg.ALICE_UPSTREAM_PERIOD) ∧
    (∀ b2 : linkaddr_t,
      get_node_timeslot_us cfg (some a) (some b2) = get_node_timeslot_us cfg (some a) (some b) ∧
      get_node_timeslot_ds cfg (some a) (some b2) = get_node_timeslot_ds cfg (some a) (some b)) := by
  refine ⟨timeslot_us_some cfg a b, timeslot_ds_some cfg a b, ?_, ?_, ?_⟩
  · intro hU hle
    rw [timeslot_us_some cfg a b hU]
    have h0 := hash_emod_nonneg (cfg.ORCHESTRA_LINKADDR_HASH a) _ hU
    have h1 := hash_emod_lt (cfg.ORCHESTRA_LINKADDR_HASH a) _ hU
    exact toU16_of_lt _ h0 (by omega)
  · intro hD hU hle
    rw [timeslot_ds_some cfg a b hD]
    have h0 := hash_emod_nonneg (cfg.ORCHESTRA_LINKADDR_HASH a) _ hD
    have h1 := hash_emod_lt (cfg.ORCHESTRA_LINKADDR_HASH a) _ hD
    exact toU16_of_lt _ (by omega) (by omega)
  · intro b2
    simp [get_node_timeslot_us, get_node_timeslot_ds, ALICE_MODE_1L_2S_3R]

/-- Witness of amended C1 at Scenario A (both periods 5) with sender 7 and receiver 9: upstream slot
`7 mod 5 = 2`, downstream slot `2 + 5 = 7`. -/
theorem C1_sender_based_timeslot_witness :
    get_node_timeslot_us cfgA (some ⟨7⟩) (some ⟨9⟩) = 2 ∧
    get_node_timeslot_ds cfgA (some ⟨7⟩) (some ⟨9⟩) = 7 ∧
    (get_node_timeslot_us cfgA (some ⟨7⟩) (some ⟨9⟩) : Int) = 2 ∧
    (get_node_timeslot_ds cfgA (some ⟨7⟩) (some ⟨9⟩) : Int) = 7 := by
  have h := C1_sender_based_timeslot cfgA ⟨7⟩ ⟨9⟩
  refine ⟨?_, ?_, ?_, ?_⟩
  · rw [h.1 (by decide)]; decide
  · rw [h.2.1 (by decide)]; decide
  · rw [h.2.2.1 (by decide) (by decide)]; decide
  · rw [h.2.2.2.1 (by decide) (by decide) (by decide)]; decide

/-- C2 as stated fails: with upstream period 5 a present sender whose value is `linkaddr_null`
gets the upstream slot `hash(linkaddr_null) mod 5`, not `0xffff`. -/
theorem C2_null_sentinel_counterexample :
    ¬ (∀ (cfg : Config) (a1 a2 : Option linkaddr_t),
        (a1 = none ∨ a1 = some linkaddr_null ∨ a2 = none ∨ a2 = some linkaddr_null
          ∨ cfg.ALICE_UPSTREAM_PERIOD ≤ 0) →
        get_node_timeslot_us cfg a1 a2 = 0xffff) := by
  intro h
  have h1 := h cfgA (some linkaddr_null) (some ⟨9⟩) (Or.inr (Or.inl rfl))
  revert h1
  decide

/-- C2 amended: when either address is absent (a `NULL` pointer) or the corresponding period is
not positive, `get_node_timeslot_us` and `get_node_timeslot_ds` return `0xffff`; a present
address whose value is `linkaddr_null` is hashed like any other address. -/
theorem C2_absent_or_nonpositive_period (cfg : Config) (a1 a2 : Option linkaddr_t) :
    ((a1 = none ∨ a2 = none ∨ cfg.ALICE_UPSTREAM_PERIOD ≤ 0) →
      get_node_timeslot_us cfg a1 a2 = 0xffff) ∧
    ((a1 = none ∨ a2 = none ∨ cfg.ALICE_DOWNSTREAM_PERIOD ≤ 0) →
      get_node_timeslot_ds cfg a1 a2 = 0xffff) ∧
    (∀ b : linkaddr_t, 0 < cfg.ALICE_UPSTREAM_PERIOD →
      get_node_timeslot_us cfg (some linkaddr_null) (some b)
        = toU16 ((cfg.ORCHESTRA_LINKADDR_HASH linkaddr_null : Int) % cfg.ALICE_UPSTREAM_PERIOD)) ∧
    (∀ b : linkaddr_t, 0 < cfg.ALICE_DOWNSTREAM_PERIOD →
      get_node_timeslot_ds cfg (some linkaddr_null) (some b)
        = toU16 ((cfg.ORCHESTRA_LINKADDR_HASH linkaddr_null : Int) % cfg.ALICE_DOWNSTREAM_PERIOD
            + cfg.ALICE_UPSTREAM_PERIOD)) := by
  refine ⟨?_, ?_, fun b hU => timeslot_us_some cfg linkaddr_null b hU,
    fun b hD => timeslot_ds_some cfg linkaddr_null b hD⟩
  · rintro (h | h | h)
    · subst h; cases a2 <;> simp [get_node_timeslot_us]
    · subst h; cases a1 <;> simp [get_node_timeslot_us]
    · exact timeslot_us_nonpos cfg a1 a2 h
  · rintro (h | h | h)
    · subst h; cases a2 <;> simp [get_node_timeslot_ds]
    · subst h; cases a1 <;> simp [get_node_timeslot_ds]
    · exact timeslot_ds_nonpos cfg a1 a2 h

/-- Witness of amended C2: an absent receiver gives `0xffff` in Scenario A, and the present
`linkaddr_null` sender gives slot 0 upstream and slot 5 downstream. -/
theorem C2_absent_or_nonpositive_period_witness :
    get_node_timeslot_us cfgA (some ⟨7⟩) none = 0xffff ∧
    get_node_timeslot_ds cfgA (some ⟨7⟩) none = 0xffff ∧
    get_node_timeslot_us cfgA (some linkaddr_null) (some ⟨9⟩) = 0 ∧
    get_node_timeslot_ds cfgA (some linkaddr_null) (some ⟨9⟩) = 5 := by
  have h := C2_absent_or_nonpositive_period cfgA (some ⟨7⟩) none
  refine ⟨h.1 (Or.inr (Or.inl rfl)), h.2.1 (Or.inr (Or.inl rfl)), ?_, ?_⟩
  · rw [h.2.2.1 ⟨9⟩ (by decide)]; decide
  · rw [h.2.2.2 ⟨9⟩ (by decide)]; decide

/-- C3 as stated fails: with the positive periods 65535 (upstream) and 1 (downstream) the
valid downstream timeslot of sender 7 is `0 + 65535 = 0xffff`, the invalid-slot marker. -/
theorem C3_slot_ranges_counterexample :
    ¬ (∀ (cfg : Config) (a b c d : linkaddr_t),
        0 < cfg.ALICE_UPSTREAM_PERIOD → 0 < cfg.ALICE_DOWNSTREAM_PERIOD →
        (get_node_timeslot_us cfg (some a) (some b) : Int) < cfg.ALICE_UPSTREAM_PERIOD ∧
        cfg.ALICE_UPSTREAM_PERIOD ≤ (get_node_timeslot_ds cfg (some c) (some d) : Int) ∧
        (get_node_timeslot_ds cfg (some c) (some d) : Int)
          < cfg.ALICE_UPSTREAM_PERIOD + cfg.ALICE_DOWNSTREAM_PERIOD ∧
        get_node_timeslot_us cfg (some a) (some b) ≠ get_node_timeslot_ds cfg (some c) (some d) ∧
        get_node_timeslot_us cfg (some a) (some b) ≠ 0xffff ∧
        get_node_timeslot_ds cfg (some c) (some d) ≠ 0xffff) := by
  intro h
  have h1 := (h cfgWide ⟨7⟩ ⟨9⟩ ⟨7⟩ ⟨9⟩ (by decide) (by decide)).2.2.2.2.2
  revert h1
  decide

/-- C3 amended: for present addresses and positive periods whose sum is at most `0xffff`, the
upstream timeslot is below the upstream period, the downstream timeslot is at least the
upstream period and below the sum of the periods, so a valid upstream timeslot never equals a
valid downstream one and neither equals the invalid-slot marker `0xffff`. -/
theorem C3_slot_ranges (cfg : Config) (a b c d : linkaddr_t)
    (hU : 0 < cfg.ALICE_UPSTREAM_PERIOD) (hD : 0 < cfg.ALICE_DOWNSTREAM_PERIOD)
    (hH : cfg.ALICE_UPSTREAM_PERIOD + cfg.ALICE_DOWNSTREAM_PERIOD ≤ 0xffff) :
    (get_node_timeslot_us cfg (some a) (some b) : Int) < cfg.ALICE_UPSTREAM_PERIOD ∧
    cfg.ALICE_UPSTREAM_PERIOD ≤ (get_node_timeslot_ds cfg (some c) (some d) : Int) ∧
    (get_node_timeslot_ds cfg (some c) (some d) : Int)
      < cfg.ALICE_UPSTREAM_PERIOD + cfg.ALICE_DOWNSTREAM_PERIOD ∧
    get_node_timeslot_us cfg (some a) (some b) ≠ get_node_timeslot_ds cfg (some c) (some d) ∧
    get_node_timeslot_us cfg (some a) (some b) ≠ 0xffff ∧
    get_node_timeslot_ds cfg (some c) (some d) ≠ 0xffff := by
  have hus := timeslot_us_lt cfg a b hU
  have h0 := hash_emod_nonneg (cfg.ORCHESTRA_LINKADDR_HASH c) _ hD
  have h1 := hash_emod_lt (cfg.ORCHESTRA_LINKADDR_HASH c) _ hD
  have hds : (get_node_timeslot_ds cfg (some c) (some d) : Int)
      = (cfg.ORCHESTRA_LINKADDR_HASH c : Int) % cfg.ALICE_DOWNSTREAM_PERIOD
          + cfg.ALICE_UPSTREAM_PERIOD := by
    rw [timeslot_ds_some cfg c d hD]
    exact toU16_of_lt _ (by omega) (by omega)
  refine ⟨hus, by omega, by omega, ?_, ?_, ?_⟩
  · intro he
    rw [he] at hus
    omega
  · intro he
    rw [he] at hus
    omega
  · intro he
    rw [he] at hds
    omega

/-- Witness of amended C3 at Scenario A (periods 5 and 5). -/
theorem C3_slot_ranges_witness :
    (get_node_timeslot_us cfgA (some ⟨7⟩) (some ⟨9⟩) : Int) < 5 ∧
    (5 : Int) ≤ (get_node_timeslot_ds cfgA (some ⟨8⟩) (some ⟨9⟩) : Int) ∧
    get_node_timeslot_us cfgA (some ⟨7⟩) (some ⟨9⟩)
      ≠ get_node_timeslot_ds cfgA (some ⟨8⟩) (some ⟨9⟩) := by
  have h := C3_slot_ranges cfgA ⟨7⟩ ⟨9⟩ ⟨8⟩ ⟨9⟩ (by decide) (by decide) (by decide)
  exact ⟨h.1, h.2.1, h.2.2.2.1⟩

/-- C4: rebuilding twice in a row gives the same state (hence the same installed links, in
number and in timeslot, channel offset and options) as rebuilding once, and the links a rebuild
leaves do not depend on the links installed before it: whatever list `old` was installed, the
result is the one obtained from an empty schedule. -/
theorem C4_rebuild_idempotent (cfg : Config) (s : State) (old : List tsch_link) :
    schedule_unicast_slotframe cfg (schedule_unicast_slotframe cfg s)
      = schedule_unicast_slotframe cfg s ∧
    (schedule_unicast_slotframe cfg (schedule_unicast_slotframe cfg s)).sf_unicast.links_list.length
      = (schedule_unicast_slotframe cfg s).sf_unicast.links_list.length ∧
    schedule_unicast_slotframe cfg
        { s with sf_unicast := { s.sf_unicast with links_list := old } }
      = schedule_unicast_slotframe cfg
          { s with sf_unicast := { s.sf_unicast with links_list := [] } } ∧
    (∀ l, l ∈ (schedule_unicast_slotframe cfg s).sf_unicast.links_list →
      l ∈ (schedule_unicast_slotframe cfg
            { s with sf_unicast := { s.sf_unicast with links_list := [] } }).sf_unicast.links_list) := by
  refine ⟨?_, ?_, ?_, ?_⟩
  · simp [schedule_unicast_slotframe_eq]
  · simp [schedule_unicast_slotframe_eq]
  · simp [schedule_unicast_slotframe_eq]
  · intro l hl
    simpa [schedule_unicast_slotframe_eq] using hl

/-- C5: for the child `C` at position `i` of the child table, the rebuild installs at position
`2 + 2 * i` the upstream link of `C`, at the timeslot and channel offset computed for
`(C, self)`; when this pair equals the parent's upstream pair computed for `(self, P)` the link
has the transmit and the receive flag, otherwise it has the receive flag and not the transmit
flag. -/
theorem C5_child_upstream_option (cfg : Config) (s : State) (i : Nat) (C : linkaddr_t)
    (hC : s.nbr_routes[i]? = some C) :
    ∃ l : tsch_link,
      (schedule_unicast_slotframe cfg s).sf_unicast.links_list[2 + 2 * i]? = some l ∧
      l.timeslot = get_node_timeslot_us cfg (some C) (some s.linkaddr_node_addr) ∧
      l.channel_offset = get_node_channel_offset_us cfg (some C) (some s.linkaddr_node_addr) ∧
      ((get_node_timeslot_us cfg (some C) (some s.linkaddr_node_addr)
            = get_node_timeslot_us cfg (some s.linkaddr_node_addr)
                (some s.orchestra_parent_linkaddr) ∧
          get_node_channel_offset_us cfg (some C) (some s.linkaddr_node_addr)
            = get_node_channel_offset_us cfg (some s.linkaddr_node_addr)
                (some s.orchestra_parent_linkaddr)) →
        has_flag l.link_options LINK_OPTION_TX = true ∧
        has_flag l.link_options LINK_OPTION_RX = true) ∧
      (¬ (get_node_timeslot_us cfg (some C) (some s.linkaddr_node_addr)
            = get_node_timeslot_us cfg (some s.linkaddr_node_addr)
                (some s.orchestra_parent_linkaddr) ∧
          get_node_channel_offset_us cfg (some C) (some s.linkaddr_node_addr)
            = get_node_channel_offset_us cfg (some s.linkaddr_node_addr)
                (some s.orchestra_parent_linkaddr)) →
        has_flag l.link_options LINK_OPTION_RX = true ∧
        has_flag l.link_options LINK_OPTION_TX = false) := by
  refine ⟨child_up_link cfg s.linkaddr_node_addr s.orchestra_parent_linkaddr C, ?_, rfl, rfl, ?_, ?_⟩
  · rw [schedule_unicast_slotframe_links, installed_links_child_up, hC]
    rfl
  · intro h
    simp only [child_up_link, h, and_self, if_true]
    rcases link_option_tx_cases cfg with h5 | h1
    · rw [h5]; decide
    · rw [h1]; decide
  · intro h
    simp only [child_up_link, h, if_false]
    decide

/-- Witness of C5 in Scenario A: the child 27 at position 0 collides with the parent's upstream
pair (`27 mod 5 = 7 mod 5`, `27 mod 4 = 7 mod 4`), the link at position 2 carries options
`7` (transmit, receive, shared); the child 9 at position 1 does not collide and its link at
position 4 carries option `2` (receive). -/
theorem C5_child_upstream_option_witness :
    (schedule_unicast_slotframe cfgA stateA).sf_unicast.links_list[2]? = some ⟨7, 2, 3⟩ ∧
    (schedule_unicast_slotframe cfgA stateA).sf_unicast.links_list[4]? = some ⟨2, 4, 1⟩ ∧
    (∃ l : tsch_link,
      (schedule_unicast_slotframe cfgA stateA).sf_unicast.links_list[2 + 2 * 0]? = some l ∧
      l.timeslot = 2) := by
  refine ⟨by decide, by decide, ?_⟩
  obtain ⟨l, h1, h2, _⟩ := C5_child_upstream_option cfgA stateA 0 ⟨27⟩ (by decide)
  exact ⟨l, h1, by rw [h2]; decide⟩

/-- C6 as stated fails: in Scenario A's configuration, for node 7 with parent `linkaddr_null`
and no child, neither parent slot is `0xffff`, and both the rebuild and `init` install the two
parent links (transmit at slot 2, receive at slot 5): the installed schedule is not empty. -/
theorem C6_null_parent_counterexample :
    stateB.orchestra_parent_linkaddr = linkaddr_null ∧ stateB.nbr_routes = [] ∧
    get_node_timeslot_us cfgA (some stateB.linkaddr_node_addr) (some linkaddr_null) ≠ 0xffff ∧
    get_node_timeslot_ds cfgA (some linkaddr_null) (some stateB.linkaddr_node_addr) ≠ 0xffff ∧
    (schedule_unicast_slotframe cfgA stateB).sf_unicast.links_list = [⟨5, 2, 3⟩, ⟨2, 5, 0⟩] ∧
    (init cfgA 1 stateB).sf_unicast.links_list = [⟨5, 2, 3⟩, ⟨2, 5, 0⟩] ∧
    (schedule_unicast_slotframe cfgA stateB).sf_unicast.links_list ≠ [] := by
  decide

/-- C6 amended: when the parent address is `linkaddr_null`, the parent slots are computed from
the hashes of the own address and of `linkaddr_null` like for any present address (the 16-bit
values of `hash(self) mod UpstreamPeriod` and of
`hash(linkaddr_null) mod DownstreamPeriod + UpstreamPeriod` when the respective period is
positive; neither is the invalid-slot marker when both periods are positive and add up to at
most `0xffff`), and both the rebuild and `init` install the parent pair: with an empty child
set the installed schedule is exactly the upstream transmit link at the slot of
`(self, linkaddr_null)` followed by the downstream receive link at the slot of
`(linkaddr_null, self)`. -/
theorem C6_null_parent_pair_installed (cfg : Config) (s : State) (h : Nat)
    (hP : s.orchestra_parent_linkaddr = linkaddr_null) (hC : s.nbr_routes = []) :
    (schedule_unicast_slotframe cfg s).sf_unicast.links_list
      = [ ⟨link_option_tx cfg,
            get_node_timeslot_us cfg (some s.linkaddr_node_addr) (some linkaddr_null),
            get_node_channel_offset_us cfg (some s.linkaddr_node_addr) (some linkaddr_null)⟩,
          ⟨link_option_rx,
            get_node_timeslot_ds cfg (some linkaddr_null) (some s.linkaddr_node_addr),
            get_node_channel_offset_ds cfg (some linkaddr_null) (some s.linkaddr_node_addr)⟩ ] ∧
    (init cfg h s).sf_unicast.links_list
      = (schedule_unicast_slotframe cfg s).sf_unicast.links_list ∧
    (0 < cfg.ALICE_UPSTREAM_PERIOD →
      get_node_timeslot_us cfg (some s.linkaddr_node_addr) (some linkaddr_null)
        = toU16 ((cfg.ORCHESTRA_LINKADDR_HASH s.linkaddr_node_addr : Int)
            % cfg.ALICE_UPSTREAM_PERIOD)) ∧
    (0 < cfg.ALICE_DOWNSTREAM_PERIOD →
      get_node_timeslot_ds cfg (some linkaddr_null) (some s.linkaddr_node_addr)
        = toU16 ((cfg.ORCHESTRA_LINKADDR_HASH linkaddr_null : Int)
            % cfg.ALICE_DOWNSTREAM_PERIOD + cfg.ALICE_UPSTREAM_PERIOD)) ∧
    (0 < cfg.ALICE_UPSTREAM_PERIOD → 0 < cfg.ALICE_DOWNSTREAM_PERIOD →
      cfg.ALICE_UPSTREAM_PERIOD + cfg.ALICE_DOWNSTREAM_PERIOD ≤ 0xffff →
      get_node_timeslot_us cfg (some s.linkaddr_node_addr) (some linkaddr_null) ≠ 0xffff ∧
      get_node_timeslot_ds cfg (some linkaddr_null) (some s.linkaddr_node_addr) ≠ 0xffff) := by
  refine ⟨?_, ?_, timeslot_us_some cfg _ _, timeslot_ds_some cfg _ _,
    fun hU hD hH => timeslot_ne_invalid cfg _ _ _ _ hU hD hH⟩
  · rw [schedule_unicast_slotframe_links, hP, hC]
    simp [installed_links, parent_links]
  · rw [schedule_unicast_slotframe_links, init_links, hC]
    simp [installed_links]

/-- Witness of amended C6 at Scenario B: two links are installed for the `linkaddr_null`
parent, at the timeslots 2 and 5, neither of them `0xffff`. -/
theorem C6_null_parent_pair_installed_witness :
    (schedule_unicast_slotframe cfgA stateB).sf_unicast.links_list = [⟨5, 2, 3⟩, ⟨2, 5, 0⟩] ∧
    (init cfgA 1 stateB).sf_unicast.links_list
      = (schedule_unicast_slotframe cfgA stateB).sf_unicast.links_list ∧
    get_node_timeslot_us cfgA (some stateB.linkaddr_node_addr) (some linkaddr_null) ≠ 0xffff ∧
    get_node_timeslot_ds cfgA (some linkaddr_null) (some stateB.linkaddr_node_addr) ≠ 0xffff := by
  have h := C6_null_parent_pair_installed cfgA stateB 1 rfl rfl
  have hne := h.2.2.2.2 (by decide) (by decide) (by decide)
  refine ⟨?_, h.2.1, hne.1, hne.2⟩
  rw [h.1]
  decide

/-- C7 as stated fails: with downstream period 0 and upstream period 5 the rebuild of
Scenario A's state still installs the downstream links, the parent's at position 1 and the
ones of the two children at positions 3 and 5, each with the invalid timeslot `0xffff`. -/
theorem C7_downstream_disabled_counterexample :
    ¬ (∀ (cfg : Config) (s : State), cfg.ALICE_DOWNSTREAM_PERIOD = 0 →
        0 < cfg.ALICE_UPSTREAM_PERIOD →
        ∀ l ∈ (schedule_unicast_slotframe cfg s).sf_unicast.links_list, l.timeslot ≠ 0xffff) := by
  intro h
  have h1 := h cfgD stateA (by decide) (by decide) ⟨2, 0xffff, 2⟩ (by decide)
  revert h1
  decide

/-- C7 amended: when the downstream period is 0 and the upstream period is positive, the
rebuild still installs one downstream link for the parent and one for every child, each with
the invalid timeslot `0xffff`, and it installs the upstream link of the parent and of every
child with a timeslot below the upstream period: of the `2 + 2 * n` installed links, the one
at every even position `2 * i` is an upstream link with a valid timeslot and the one at every
odd position `2 * i + 1` is a downstream link with timeslot `0xffff`. -/
theorem C7_downstream_disabled (cfg : Config) (s : State)
    (hD : cfg.ALICE_DOWNSTREAM_PERIOD = 0) (hU : 0 < cfg.ALICE_UPSTREAM_PERIOD) :
    (schedule_unicast_slotframe cfg s).sf_unicast.links_list.length
      = 2 + 2 * s.nbr_routes.length ∧
    ∀ i : Nat, i ≤ s.nbr_routes.length →
      ∃ up down : tsch_link,
        (schedule_unicast_slotframe cfg s).sf_unicast.links_list[2 * i]? = some up ∧
        (schedule_unicast_slotframe cfg s).sf_unicast.links_list[2 * i + 1]? = some down ∧
        (up.timeslot : Int) < cfg.ALICE_UPSTREAM_PERIOD ∧
        down.timeslot = 0xffff := by
  have hD0 : cfg.ALICE_DOWNSTREAM_PERIOD ≤ 0 := by omega
  refine ⟨?_, ?_⟩
  · rw [schedule_unicast_slotframe_links, installed_links_length]
  · intro i hi
    rw [schedule_unicast_slotframe_links]
    cases i with
    | zero =>
      exact ⟨_, _, installed_links_parent_up cfg _ _ _, installed_links_parent_down cfg _ _ _,
        timeslot_us_lt cfg _ _ hU, timeslot_ds_nonpos cfg (some _) (some _) hD0⟩
    | succ k =>
      have hk : k < s.nbr_routes.length := by omega
      have e1 : 2 * (k + 1) = 2 + 2 * k := by omega
      have e2 : 2 * (k + 1) + 1 = 3 + 2 * k := by omega
      rw [e2, e1, installed_links_child_up, installed_links_child_down,
        List.getElem?_eq_getElem hk]
      exact ⟨_, _, rfl, rfl, timeslot_us_lt cfg _ _ hU,
        timeslot_ds_nonpos cfg (some _) (some _) hD0⟩

/-- Witness of amended C7 at Scenario D (upstream period 5, downstream period 0) on
Scenario A's state with two children: six links are installed, the parent's upstream link has
timeslot 2 and its downstream link has timeslot `0xffff`. -/
theorem C7_downstream_disabled_witness :
    (schedule_unicast_slotframe cfgD stateA).sf_unicast.links_list.length = 6 ∧
    (schedule_unicast_slotframe cfgD stateA).sf_unicast.links_list[0]? = some ⟨5, 2, 3⟩ ∧
    (schedule_unicast_slotframe cfgD stateA).sf_unicast.links_list[1]? = some ⟨2, 0xffff, 2⟩ := by
  have h := C7_downstream_disabled cfgD stateA (by decide) (by decide)
  refine ⟨?_, by decide, by decide⟩
  rw [h.1]
  decide

/-- C8 as stated fails: with the positive periods 65535 and 1, after
`new_time_source(NULL, P)` for the parent 2 the parent's receive link is installed at timeslot
`2 mod 1 + 65535 = 0xffff`, the invalid-slot marker. -/
theorem C8_parent_acquired_counterexample :
    0 < cfgWide.ALICE_UPSTREAM_PERIOD ∧ 0 < cfgWide.ALICE_DOWNSTREAM_PERIOD ∧
    (⟨2⟩ : linkaddr_t) ≠ linkaddr_null ∧
    (new_time_source cfgWide none (some ⟨1, ⟨2⟩⟩) stateB).orchestra_parent_linkaddr = ⟨2⟩ ∧
    (new_time_source cfgWide none (some ⟨1, ⟨2⟩⟩) stateB).sf_unicast.links_list
      = [⟨5, 7, 3⟩, ⟨2, 0xffff, 2⟩] := by
  decide

/-- C8 amended: with both periods positive and their sum at most `0xffff`, for every time
source `n` with address `P`, `new_time_source(NULL, n)` sets the parent to `P` and rebuilds:
the installed list has `2 + 2 * n` links for `n` children, the links of the child at table
position `i` stand at positions `2 + 2 * i` and `3 + 2 * i`, and the list starts with the two
parent links, the transmit link (transmit flag, no receive flag) at the upstream slot and offset of
`(self, P)` and the receive link (receive flag, no transmit flag) at the downstream slot and
offset of `(P, self)`, both timeslots different from `0xffff`. -/
theorem C8_parent_acquired (cfg : Config) (s : State) (n : tsch_neighbor)
    (hU : 0 < cfg.ALICE_UPSTREAM_PERIOD) (hD : 0 < cfg.ALICE_DOWNSTREAM_PERIOD)
    (hH : cfg.ALICE_UPSTREAM_PERIOD + cfg.ALICE_DOWNSTREAM_PERIOD ≤ 0xffff) :
    (new_time_source cfg none (some n) s).orchestra_parent_linkaddr = n.addr ∧
    (new_time_source cfg none (some n) s).sf_unicast.links_list.length
      = 2 + 2 * s.nbr_routes.length ∧
    (new_time_source cfg none (some n) s).sf_unicast.links_list.take 2
      = [ ⟨link_option_tx cfg,
            get_node_timeslot_us cfg (some s.linkaddr_node_addr) (some n.addr),
            get_node_channel_offset_us cfg (some s.linkaddr_node_addr) (some n.addr)⟩,
          ⟨link_option_rx,
            get_node_timeslot_ds cfg (some n.addr) (some s.linkaddr_node_addr),
            get_node_channel_offset_ds cfg (some n.addr) (some s.linkaddr_node_addr)⟩ ] ∧
    (∀ (i : Nat) (C : linkaddr_t), s.nbr_routes[i]? = some C →
      ∃ up down : tsch_link,
        (new_time_source cfg none (some n) s).sf_unicast.links_list[2 + 2 * i]? = some up ∧
        (new_time_source cfg none (some n) s).sf_unicast.links_list[3 + 2 * i]? = some down ∧
        up.timeslot = get_node_timeslot_us cfg (some C) (some s.linkaddr_node_addr) ∧
        down.timeslot = get_node_timeslot_ds cfg (some s.linkaddr_node_addr) (some C)) ∧
    has_flag (link_option_tx cfg) LINK_OPTION_TX = true ∧
    has_flag (link_option_tx cfg) LINK_OPTION_RX = false ∧
    has_flag link_option_rx LINK_OPTION_RX = true ∧
    has_flag link_option_rx LINK_OPTION_TX = false ∧
    get_node_timeslot_us cfg (some s.linkaddr_node_addr) (some n.addr) ≠ 0xffff ∧
    get_node_timeslot_ds cfg (some n.addr) (some s.linkaddr_node_addr) ≠ 0xffff := by
  have hnew : new_time_source cfg none (some n) s
      = schedule_unicast_slotframe cfg { s with orchestra_parent_linkaddr := n.addr } := by
    simp [new_time_source]
  have h3 := timeslot_ne_invalid cfg s.linkaddr_node_addr n.addr n.addr s.linkaddr_node_addr hU hD hH
  refine ⟨?_, ?_, ?_, ?_, ?_, ?_, by decide, by decide, h3.1, h3.2⟩
  · rw [hnew, schedule_unicast_slotframe_eq]
  · rw [hnew, schedule_unicast_slotframe_links, installed_links_length]
  · rw [hnew, schedule_unicast_slotframe_links]
    simp [installed_links, parent_links]
  · intro i C hC
    rw [hnew, schedule_unicast_slotframe_links]
    refine ⟨child_up_link cfg s.linkaddr_node_addr n.addr C,
      child_down_link cfg s.linkaddr_node_addr n.addr C, ?_, ?_, rfl, rfl⟩
    · rw [installed_links_child_up]
      simp [hC]
    · rw [installed_links_child_down]
      simp [hC]
  · rcases link_option_tx_cases cfg with h5 | h1
    · rw [h5]; decide
    · rw [h1]; decide
  · rcases link_option_tx_cases cfg with h5 | h1
    · rw [h5]; decide
    · rw [h1]; decide

/-- Witness of amended C8 at Scenario B: node 7 acquires the parent 2 in Scenario A's
configuration; the two parent links are the transmit link at slot 2 and the receive link at
slot 7. -/
theorem C8_parent_acquired_witness :
    (new_time_source cfgA none (some ⟨1, ⟨2⟩⟩) stateB).orchestra_parent_linkaddr = ⟨2⟩ ∧
    (new_time_source cfgA none (some ⟨1, ⟨2⟩⟩) stateB).sf_unicast.links_list
      = [⟨5, 2, 3⟩, ⟨2, 7, 2⟩] ∧
    (new_time_source cfgA none (some ⟨1, ⟨2⟩⟩) stateB).sf_unicast.links_list.length = 2 := by
  have h := C8_parent_acquired cfgA stateB ⟨1, ⟨2⟩⟩ (by decide) (by decide) (by decide)
  refine ⟨h.1, by decide, ?_⟩
  rw [h.2.1]
  decide

/-- C9: let the installed schedule of `s` come from a rebuild (`s` is the result of
`schedule_unicast_slotframe`), let the child table be `pre ++ post` and `X` an address not in
it. After the table gains `X` (at any position) and `child_added(X)` runs, and then the table
loses `X` again and `child_removed(X)` runs, the state, in particular the installed schedule,
is exactly the one before the addition. -/
theorem C9_child_add_remove_roundtrip (cfg : Config) (s0 : State) (X : linkaddr_t)
    (pre post : List linkaddr_t)
    (hT : s0.nbr_routes = pre ++ post) (hX : X ∉ pre ++ post) :
    let s := schedule_unicast_slotframe cfg s0
    let s1 := child_added cfg (some X) { s with nbr_routes := pre ++ X :: post }
    let s2 := child_removed cfg (some X) { s1 with nbr_routes := s1.nbr_routes.erase X }
    s2 = s ∧ s2.sf_unicast.links_list = s.sf_unicast.links_list := by
  intro s s1 s2
  have hpre : X ∉ pre := fun h => hX (List.mem_append_left _ h)
  have herase : (pre ++ X :: post).erase X = pre ++ post := by
    rw [List.erase_append_right _ hpre, List.erase_cons_head]
  have h2 : s2 = s := by
    simp only [s2, s1, s, child_added, child_removed, schedule_unicast_slotframe_eq, herase, hT]
  exact ⟨h2, by rw [h2]⟩

/-- Witness of C9 on Scenario A: the child 33 is added between the children 27 and 9 and
removed again; the six installed links are the same as before. -/
theorem C9_child_add_remove_roundtrip_witness :
    (child_removed cfgA (some ⟨33⟩)
      { child_added cfgA (some ⟨33⟩)
          { schedule_unicast_slotframe cfgA stateA with nbr_routes := [⟨27⟩] ++ ⟨33⟩ :: [⟨9⟩] } with
        nbr_routes := (child_added cfgA (some ⟨33⟩)
          { schedule_unicast_slotframe cfgA stateA with
            nbr_routes := [⟨27⟩] ++ ⟨33⟩ :: [⟨9⟩] }).nbr_routes.erase ⟨33⟩ })
      = schedule_unicast_slotframe cfgA stateA ∧
    (child_added cfgA (some ⟨33⟩)
      { schedule_unicast_slotframe cfgA stateA with
        nbr_routes := [⟨27⟩] ++ ⟨33⟩ :: [⟨9⟩] }).sf_unicast.links_list.length = 8 ∧
    (schedule_unicast_slotframe cfgA stateA).sf_unicast.links_list.length = 6 :=
  ⟨(C9_child_add_remove_roundtrip cfgA stateA ⟨33⟩ [⟨27⟩] [⟨9⟩] rfl (by decide)).1,
    by decide, by decide⟩

/-- C10 as stated fails: with `ORCHESTRA_UNICAST_SENDER_BASED` set and a parent that does not
yet know this node, a data frame for the non-null parent address 2 is not claimed
(`select_packet` returns 0). -/
theorem C10_select_packet_counterexample :
    ¬ (∀ (cfg : Config) (s : State) (frame_type : Nat) (dest : linkaddr_t)
        (slotframe timeslot channel_offset : Option Nat),
        (select_packet cfg s frame_type dest slotframe timeslot channel_offset).ret = 1 ↔
          (frame_type = FRAME802154_DATAFRAME ∧ dest ≠ linkaddr_null ∧
            (dest = s.orchestra_parent_linkaddr ∨ dest ∈ s.nbr_routes))) := by
  intro h
  have h1 := (h cfgS stateS FRAME802154_DATAFRAME ⟨2⟩ none none none).mpr (by decide)
  revert h1
  decide

/-- C10 amended: `select_packet` returns 1 exactly when the frame is a data frame and its
destination is a non-null address that either equals the current parent address while
`orchestra_parent_knows_us` is set or the rule is not configured sender-based
(`ORCHESTRA_UNICAST_SENDER_BASED` is 0), or appears in the child table; in every other case,
so for every non-data frame, for the null address and for a destination in neither role, it
returns 0. When the rule is not configured sender-based this is the condition of the claim. -/
theorem C10_select_packet_claims (cfg : Config) (s : State) (frame_type : Nat)
    (dest : linkaddr_t) (slotframe timeslot channel_offset : Option Nat) :
    ((select_packet cfg s frame_type dest slotframe timeslot channel_offset).ret = 1 ↔
      (frame_type = FRAME802154_DATAFRAME ∧ dest ≠ linkaddr_null ∧
        (((s.orchestra_parent_knows_us = true ∨ cfg.ORCHESTRA_UNICAST_SENDER_BASED = false) ∧
            dest = s.orchestra_parent_linkaddr) ∨ dest ∈ s.nbr_routes))) ∧
    ((select_packet cfg s frame_type dest slotframe timeslot channel_offset).ret = 1 ∨
      (select_packet cfg s frame_type dest slotframe timeslot channel_offset).ret = 0) ∧
    (frame_type ≠ FRAME802154_DATAFRAME →
      (select_packet cfg s frame_type dest slotframe timeslot channel_offset).ret = 0) ∧
    ((dest ≠ s.orchestra_parent_linkaddr ∧ dest ∉ s.nbr_routes) →
      (select_packet cfg s frame_type dest slotframe timeslot channel_offset).ret = 0) ∧
    (dest = linkaddr_null →
      (select_packet cfg s frame_type dest slotframe timeslot channel_offset).ret = 0) ∧
    (cfg.ORCHESTRA_UNICAST_SENDER_BASED = false →
      ((select_packet cfg s frame_type dest slotframe timeslot channel_offset).ret = 1 ↔
        (frame_type = FRAME802154_DATAFRAME ∧ dest ≠ linkaddr_null ∧
          (dest = s.orchestra_parent_linkaddr ∨ dest ∈ s.nbr_routes)))) := by
  have key : (select_packet cfg s frame_type dest slotframe timeslot channel_offset).ret = 1 ↔
      (frame_type = FRAME802154_DATAFRAME ∧ dest ≠ linkaddr_null ∧
        (((s.orchestra_parent_knows_us = true ∨ cfg.ORCHESTRA_UNICAST_SENDER_BASED = false) ∧
            dest = s.orchestra_parent_linkaddr) ∨ dest ∈ s.nbr_routes)) := by
    rw [select_packet_ret, ← neighbor_has_uc_link_iff]
    by_cases hc : frame_type = FRAME802154_DATAFRAME ∧ neighbor_has_uc_link cfg s (some dest) ≠ 0
    · simp only [if_pos hc, true_iff]
      exact hc
    · simp only [if_neg hc]
      constructor
      · intro h; exact absurd h (by decide)
      · intro h; exact absurd h hc
  have bin : (select_packet cfg s frame_type dest slotframe timeslot channel_offset).ret = 1 ∨
      (select_packet cfg s frame_type dest slotframe timeslot channel_offset).ret = 0 := by
    unfold select_packet
    split
    · left; rfl
    · right; rfl
  have zero_of_not : ∀ {P : Prop},
      ((select_packet cfg s frame_type dest slotframe timeslot channel_offset).ret = 1 → P) →
      ¬ P → (select_packet cfg s frame_type dest slotframe timeslot channel_offset).ret = 0 := by
    intro P hP hnP
    rcases bin with h | h
    · exact absurd (hP h) hnP
    · exact h
  refine ⟨key, bin, ?_, ?_, ?_, ?_⟩
  · intro hf
    exact zero_of_not (fun h => (key.mp h).1) hf
  · rintro ⟨h1, h2⟩
    refine zero_of_not (fun h => (key.mp h).2.2) ?_
    rintro (⟨_, h⟩ | h)
    · exact h1 h
    · exact h2 h
  · intro hn
    exact zero_of_not (fun h => (key.mp h).2.1) (fun h => h hn)
  · intro hb
    rw [key, hb]
    simp

/-- Witness of amended C10: in Scenario A (not sender-based) a data frame for the parent 2 and
one for the child 27 are claimed, a data frame for the stranger 50 and a beacon frame (type
0) for the parent are not. -/
theorem C10_select_packet_claims_witness :
    (select_packet cfgA stateA FRAME802154_DATAFRAME ⟨2⟩ none none none).ret = 1 ∧
    (select_packet cfgA stateA FRAME802154_DATAFRAME ⟨27⟩ none none none).ret = 1 ∧
    (select_packet cfgA stateA FRAME802154_DATAFRAME ⟨50⟩ none none none).ret = 0 ∧
    (select_packet cfgA stateA 0 ⟨2⟩ none none none).ret = 0 := by
  have h2 := C10_select_packet_claims cfgA stateA FRAME802154_DATAFRAME ⟨2⟩ none none none
  have h50 := C10_select_packet_claims cfgA stateA FRAME802154_DATAFRAME ⟨50⟩ none none none
  have h0 := C10_select_packet_claims cfgA stateA 0 ⟨2⟩ none none none
  refine ⟨(h2.2.2.2.2.2 rfl).mpr (by decide), by decide, h50.2.2.2.1 (by decide),
    h0.2.2.1 (by decide)⟩

/-- C11: whenever `select_packet` claims a frame for `dest`, the timeslot and channel offset it
writes (the upstream mapping of `(self, dest)` when `dest` is the parent, the downstream
mapping of `(self, dest)` otherwise) are the timeslot and channel offset of a link that the
rebuild installs for the same state, and that link has the transmit flag. -/
theorem C11_select_packet_agrees_with_schedule (cfg : Config) (s : State) (frame_type : Nat)
    (dest : linkaddr_t) (slotframe timeslot channel_offset : Option Nat)
    (hClaim : (select_packet cfg s frame_type dest slotframe timeslot channel_offset).ret = 1) :
    ∃ l ∈ (schedule_unicast_slotframe cfg s).sf_unicast.links_list,
      (select_packet cfg s frame_type dest slotframe timeslot channel_offset).timeslot
        = timeslot.map (fun _ => l.timeslot) ∧
      (select_packet cfg s frame_type dest slotframe timeslot channel_offset).channel_offset
        = channel_offset.map (fun _ => l.channel_offset) ∧
      has_flag l.link_options LINK_OPTION_TX = true ∧
      l.timeslot = (if dest = s.orchestra_parent_linkaddr
        then get_node_timeslot_us cfg (some s.linkaddr_node_addr) (some dest)
        else get_node_timeslot_ds cfg (some s.linkaddr_node_addr) (some dest)) ∧
      l.channel_offset = (if dest = s.orchestra_parent_linkaddr
        then get_node_channel_offset_us cfg (some s.linkaddr_node_addr) (some dest)
        else get_node_channel_offset_ds cfg (some s.linkaddr_node_addr) (some dest)) := by
  have hc : frame_type = FRAME802154_DATAFRAME ∧ neighbor_has_uc_link cfg s (some dest) ≠ 0 := by
    by_contra hn
    rw [select_packet_ret, if_neg hn] at hClaim
    exact absurd hClaim (by decide)
  have hrel := (neighbor_has_uc_link_iff cfg s dest).mp hc.2
  have htx : has_flag (link_option_tx cfg) LINK_OPTION_TX = true := by
    rcases link_option_tx_cases cfg with h5 | h1
    · rw [h5]; decide
    · rw [h1]; decide
  have hrxtx : has_flag (link_option_rx ||| link_option_tx cfg) LINK_OPTION_TX = true := by
    rcases link_option_tx_cases cfg with h5 | h1
    · rw [h5]; decide
    · rw [h1]; decide
  rw [schedule_unicast_slotframe_links]
  by_cases hp : dest = s.orchestra_parent_linkaddr
  · subst hp
    refine ⟨⟨link_option_tx cfg,
      get_node_timeslot_us cfg (some s.linkaddr_node_addr) (some s.orchestra_parent_linkaddr),
      get_node_channel_offset_us cfg (some s.linkaddr_node_addr)
        (some s.orchestra_parent_linkaddr)⟩, ?_, ?_, ?_, htx, ?_, ?_⟩
    · simp [installed_links, parent_links]
    · simp [select_packet, hc, linkaddr_cmp]
    · simp [select_packet, hc, linkaddr_cmp]
    · simp
    · simp
  · have hp2 : ¬ s.orchestra_parent_linkaddr = dest := fun h => hp h.symm
    have hmem : dest ∈ s.nbr_routes := by
      rcases hrel.2 with h | h
      · exact absurd h.2 hp
      · exact h
    refine ⟨child_down_link cfg s.linkaddr_node_addr s.orchestra_parent_linkaddr dest,
      ?_, ?_, ?_, ?_, ?_, ?_⟩
    · simp only [installed_links, List.mem_append, List.mem_flatMap]
      exact Or.inr ⟨dest, hmem, by simp⟩
    · simp [select_packet, hc, linkaddr_cmp, hp2, child_down_link]
    · simp [select_packet, hc, linkaddr_cmp, hp2, child_down_link]
    · simp only [child_down_link]
      split
      · exact hrxtx
      · exact htx
    · simp [child_down_link, hp]
    · simp [child_down_link, hp]

/-- Witness of C11 on Scenario A: a data frame for the parent 2 is sent at the upstream pair
`(2, 3)`, where the rebuild installs the parent's transmit link; a data frame for the child 9
is sent at the downstream pair `(7, 3)`, where the rebuild installs a transmit link. -/
theorem C11_select_packet_agrees_with_schedule_witness :
    (select_packet cfgA stateA FRAME802154_DATAFRAME ⟨2⟩ (some 0) (some 0) (some 0))
      = ⟨1, some 1, some 2, some 3⟩ ∧
    (select_packet cfgA stateA FRAME802154_DATAFRAME ⟨9⟩ (some 0) (some 0) (some 0))
      = ⟨1, some 1, some 7, some 3⟩ ∧
    (⟨5, 2, 3⟩ : tsch_link) ∈ (schedule_unicast_slotframe cfgA stateA).sf_unicast.links_list ∧
    (⟨5, 7, 3⟩ : tsch_link) ∈ (schedule_unicast_slotframe cfgA stateA).sf_unicast.links_list ∧
    (∃ l ∈ (schedule_unicast_slotframe cfgA stateA).sf_unicast.links_list,
      l.timeslot = 7 ∧ l.channel_offset = 3 ∧ has_flag l.link_options LINK_OPTION_TX = true) := by
  refine ⟨by decide, by decide, by decide, by decide, ?_⟩
  obtain ⟨l, hl, _, _, hf, ht, hc⟩ :=
    C11_select_packet_agrees_with_schedule cfgA stateA FRAME802154_DATAFRAME ⟨9⟩
      (some 0) (some 0) (some 0) (by decide)
  exact ⟨l, hl, by rw [ht]; decide, by rw [hc]; decide, hf⟩

/-- C12: `new_time_source(old, new)` leaves the state (parent address and installed schedule)
unchanged when `new` equals `old`; when they differ the parent address becomes the address of
`new`, or `linkaddr_null` when `new` is absent, and the state is exactly the rebuild of the
state with the updated parent. `child_added`, `child_removed` and the rank-parity callback
leave the parent address unchanged (`select_packet` returns no state at all). -/
theorem C12_new_time_source_effect (cfg : Config) (s : State) (old new : Option tsch_neighbor)
    (x : Option linkaddr_t) (a b : Nat) :
    (new = old → new_time_source cfg old new s = s) ∧
    (new ≠ old →
      (new_time_source cfg old new s).orchestra_parent_linkaddr
        = (new.map (fun n => n.addr)).getD linkaddr_null ∧
      new_time_source cfg old new s
        = schedule_unicast_slotframe cfg
            { s with
              orchestra_parent_linkaddr := (new.map (fun n => n.addr)).getD linkaddr_null }) ∧
    (child_added cfg x s).orchestra_parent_linkaddr = s.orchestra_parent_linkaddr ∧
    (child_removed cfg x s).orchestra_parent_linkaddr = s.orchestra_parent_linkaddr ∧
    (orchestra_callback_rank_even_odd_changed cfg a b s).orchestra_parent_linkaddr
      = s.orchestra_parent_linkaddr := by
  refine ⟨?_, ?_, ?_, ?_, ?_⟩
  · intro h
    simp [new_time_source, h]
  · intro h
    have hnew : new_time_source cfg old new s
        = schedule_unicast_slotframe cfg
            { s with
              orchestra_parent_linkaddr := (new.map (fun n => n.addr)).getD linkaddr_null } := by
      cases new <;> simp [new_time_source, h]
    refine ⟨?_, hnew⟩
    rw [hnew, schedule_unicast_slotframe_eq]
  · simp [child_added, schedule_unicast_slotframe_eq]
  · simp [child_removed, schedule_unicast_slotframe_eq]
  · simp [orchestra_callback_rank_even_odd_changed, schedule_unicast_slotframe_eq]

/-- Witness of C12 on Scenario A: keeping the time source changes nothing; replacing it by the
neighbour with address 4 makes 4 the parent; losing it makes `linkaddr_null` the parent. -/
theorem C12_new_time_source_effect_witness :
    new_time_source cfgA (some ⟨1, ⟨2⟩⟩) (some ⟨1, ⟨2⟩⟩) stateA = stateA ∧
    (new_time_source cfgA (some ⟨1, ⟨2⟩⟩) (some ⟨3, ⟨4⟩⟩) stateA).orchestra_parent_linkaddr
      = ⟨4⟩ ∧
    (new_time_source cfgA (some ⟨1, ⟨2⟩⟩) none stateA).orchestra_parent_linkaddr
      = linkaddr_null := by
  refine ⟨?_, ?_, ?_⟩
  · exact (C12_new_time_source_effect cfgA stateA (some ⟨1, ⟨2⟩⟩) (some ⟨1, ⟨2⟩⟩) none 0 0).1 rfl
  · exact ((C12_new_time_source_effect cfgA stateA (some ⟨1, ⟨2⟩⟩) (some ⟨3, ⟨4⟩⟩)
      none 0 0).2.1 (by decide)).1
  · exact ((C12_new_time_source_effect cfgA stateA (some ⟨1, ⟨2⟩⟩) none none 0 0).2.1
      (by decide)).1

/-- C13 as stated fails: in a configuration that is sender-based with collision-free hashing
and whose hashing space `ORCHESTRA_MAX_HASH + 1 = 5` is smaller than the period 10,
`link_option_tx` is the bare transmit flag, without the shared flag. -/
theorem C13_shared_flag_counterexample :
    cfgC.ORCHESTRA_MAX_HASH + 1 < cfgC.ORCHESTRA_UNICAST_PERIOD ∧
    link_option_tx cfgC = LINK_OPTION_TX ∧
    has_flag (link_option_tx cfgC) LINK_OPTION_SHARED = false := by
  decide

/-- C13 amended: `link_option_tx` carries the shared flag exactly when the configuration is not
both sender-based and collision-free-hash, or the period `ORCHESTRA_UNICAST_PERIOD` is smaller
than the hashing space `ORCHESTRA_MAX_HASH + 1`; it always carries the transmit flag and never
the receive flag. -/
theorem C13_shared_flag_policy (cfg : Config) :
    (has_flag (link_option_tx cfg) LINK_OPTION_SHARED = true ↔
      (¬ (cfg.ORCHESTRA_UNICAST_SENDER_BASED = true ∧ cfg.ORCHESTRA_COLLISION_FREE_HASH = true) ∨
        cfg.ORCHESTRA_UNICAST_PERIOD < cfg.ORCHESTRA_MAX_HASH + 1)) ∧
    has_flag (link_option_tx cfg) LINK_OPTION_TX = true ∧
    has_flag (link_option_tx cfg) LINK_OPTION_RX = false := by
  refine ⟨?_, ?_, ?_⟩
  · unfold link_option_tx UNICAST_SLOT_SHARED_FLAG
    cases hb : cfg.ORCHESTRA_UNICAST_SENDER_BASED <;>
    cases hc : cfg.ORCHESTRA_COLLISION_FREE_HASH <;>
    by_cases hp : cfg.ORCHESTRA_UNICAST_PERIOD < cfg.ORCHESTRA_MAX_HASH + 1 <;>
    simp [hp] <;> decide
  · rcases link_option_tx_cases cfg with h5 | h1
    · rw [h5]; decide
    · rw [h1]; decide
  · rcases link_option_tx_cases cfg with h5 | h1
    · rw [h5]; decide
    · rw [h1]; decide

/-- C14: for the child `C` at position `i` of the child table, the rebuild installs at position
`3 + 2 * i` the downstream link of `C`, at the timeslot and channel offset computed for
`(self, C)`; when this pair equals the parent's downstream pair computed for `(P, self)` the
link has the transmit and the receive flag, otherwise it has the transmit flag and not the
receive flag. -/
theorem C14_child_downstream_option (cfg : Config) (s : State) (i : Nat) (C : linkaddr_t)
    (hC : s.nbr_routes[i]? = some C) :
    ∃ l : tsch_link,
      (schedule_unicast_slotframe cfg s).sf_unicast.links_list[3 + 2 * i]? = some l ∧
      l.timeslot = get_node_timeslot_ds cfg (some s.linkaddr_node_addr) (some C) ∧
      l.channel_offset = get_node_channel_offset_ds cfg (some s.linkaddr_node_addr) (some C) ∧
      ((get_node_timeslot_ds cfg (some s.linkaddr_node_addr) (some C)
            = get_node_timeslot_ds cfg (some s.orchestra_parent_linkaddr)
                (some s.linkaddr_node_addr) ∧
          get_node_channel_offset_ds cfg (some s.linkaddr_node_addr) (some C)
            = get_node_channel_offset_ds cfg (some s.orchestra_parent_linkaddr)
                (some s.linkaddr_node_addr)) →
        has_flag l.link_options LINK_OPTION_TX = true ∧
        has_flag l.link_options LINK_OPTION_RX = true) ∧
      (¬ (get_node_timeslot_ds cfg (some s.linkaddr_node_addr) (some C)
            = get_node_timeslot_ds cfg (some s.orchestra_parent_linkaddr)
                (some s.linkaddr_node_addr) ∧
          get_node_channel_offset_ds cfg (some s.linkaddr_node_addr) (some C)
            = get_node_channel_offset_ds cfg (some s.orchestra_parent_linkaddr)
                (some s.linkaddr_node_addr)) →
        has_flag l.link_options LINK_OPTION_TX = true ∧
        has_flag l.link_options LINK_OPTION_RX = false) := by
  refine ⟨child_down_link cfg s.linkaddr_node_addr s.orchestra_parent_linkaddr C,
    ?_, rfl, rfl, ?_, ?_⟩
  · rw [schedule_unicast_slotframe_links, installed_links_child_down, hC]
    rfl
  · intro h
    simp only [child_down_link, h, and_self, if_true]
    rcases link_option_tx_cases cfg with h5 | h1
    · rw [h5]; decide
    · rw [h1]; decide
  · intro h
    simp only [child_down_link, h, if_false]
    rcases link_option_tx_cases cfg with h5 | h1
    · rw [h5]; decide
    · rw [h1]; decide

/-- Witness of C14 on Scenario A: the downstream pair `(7, 3)` of the child 27 differs from
the parent's downstream pair `(7, 2)`, the link at position 3 carries options `5` (transmit,
shared); with the parent 27 instead the pairs coincide and the options are `7`. -/
theorem C14_child_downstream_option_witness :
    (schedule_unicast_slotframe cfgA stateA).sf_unicast.links_list[3]? = some ⟨5, 7, 3⟩ ∧
    (schedule_unicast_slotframe cfgA
      { stateA with orchestra_parent_linkaddr := ⟨27⟩ }).sf_unicast.links_list[3]?
      = some ⟨7, 7, 3⟩ ∧
    (∃ l : tsch_link,
      (schedule_unicast_slotframe cfgA stateA).sf_unicast.links_list[3 + 2 * 0]? = some l ∧
      l.timeslot = 7) := by
  refine ⟨by decide, by decide, ?_⟩
  obtain ⟨l, h1, h2, _⟩ := C14_child_downstream_option cfgA stateA 0 ⟨27⟩ (by decide)
  exact ⟨l, h1, by rw [h2]; decide⟩

/-- C15: for two states with the same own address and parent whose child tables are
permutations of each other, the links the rebuild installs are permutations of each other,
that is, they are the same multiset of (options, timeslot, channel offset) entries. -/
theorem C15_iteration_order_independent (cfg : Config) (s1 s2 : State)
    (hSelf : s1.linkaddr_node_addr = s2.linkaddr_node_addr)
    (hParent : s1.orchestra_parent_linkaddr = s2.orchestra_parent_linkaddr)
    (hPerm : s1.nbr_routes.Perm s2.nbr_routes) :
    ((schedule_unicast_slotframe cfg s1).sf_unicast.links_list : Multiset tsch_link)
      = ((schedule_unicast_slotframe cfg s2).sf_unicast.links_list : Multiset tsch_link) ∧
    (schedule_unicast_slotframe cfg s1).sf_unicast.links_list.Perm
      (schedule_unicast_slotframe cfg s2).sf_unicast.links_list := by
  have hp : (schedule_unicast_slotframe cfg s1).sf_unicast.links_list.Perm
      (schedule_unicast_slotframe cfg s2).sf_unicast.links_list := by
    rw [schedule_unicast_slotframe_links, schedule_unicast_slotframe_links, hSelf, hParent]
    unfold installed_links
    exact List.Perm.append_left _ (List.Perm.flatMap_right _ hPerm)
  exact ⟨Multiset.coe_eq_coe.mpr hp, hp⟩

/-- Witness of C15 on Scenario A: with the children visited in the order 9, 27 instead of
27, 9 the same six links are installed, in another order. -/
theorem C15_iteration_order_independent_witness :
    (schedule_unicast_slotframe cfgA stateA).sf_unicast.links_list
      = [⟨5, 2, 3⟩, ⟨2, 7, 2⟩, ⟨7, 2, 3⟩, ⟨5, 7, 3⟩, ⟨2, 4, 1⟩, ⟨5, 7, 3⟩] ∧
    (schedule_unicast_slotframe cfgA
      { stateA with nbr_routes := [⟨9⟩, ⟨27⟩] }).sf_unicast.links_list
      = [⟨5, 2, 3⟩, ⟨2, 7, 2⟩, ⟨2, 4, 1⟩, ⟨5, 7, 3⟩, ⟨7, 2, 3⟩, ⟨5, 7, 3⟩] ∧
    (schedule_unicast_slotframe cfgA stateA).sf_unicast.links_list.Perm
      (schedule_unicast_slotframe cfgA
        { stateA with nbr_routes := [⟨9⟩, ⟨27⟩] }).sf_unicast.links_list :=
  ⟨by decide, by decide,
    (C15_iteration_order_independent cfgA stateA { stateA with nbr_routes := [⟨9⟩, ⟨27⟩] }
      rfl rfl (List.Perm.swap _ _ [])).2⟩

/-- C16: the rank-parity callback yields exactly the rebuild of the same state, whatever its
arguments `a` and `b`; two runs that differ only in the arguments and in the rank of the node
install the same schedule, and the rebuild itself does not depend on the rank. -/
theorem C16_rank_parity_unused (cfg : Config) (s : State) (a b a2 b2 : Nat)
    (rank2 : Option Nat) :
    orchestra_callback_rank_even_odd_changed cfg a b s = schedule_unicast_slotframe cfg s ∧
    (orchestra_callback_rank_even_odd_changed cfg a2 b2 { s with rpl_rank := rank2 }).sf_unicast
      = (orchestra_callback_rank_even_odd_changed cfg a b s).sf_unicast ∧
    (schedule_unicast_slotframe cfg { s with rpl_rank := rank2 }).sf_unicast
      = (schedule_unicast_slotframe cfg s).sf_unicast := by
  refine ⟨rfl, ?_, ?_⟩
  · simp [orchestra_callback_rank_even_odd_changed, schedule_unicast_slotframe_eq]
  · simp [schedule_unicast_slotframe_eq]

/-- C17 as stated fails: with a hopping sequence of 70000 entries the channel offset of the
present sender 66000 is `66000 mod 65536 = 464`, not `66000 mod 70000 = 66000`. -/
theorem C17_channel_offset_counterexample :
    ¬ (∀ (cfg : Config) (a1 a2 : Option linkaddr_t) (a b : linkaddr_t),
        get_node_channel_offset_us cfg a1 a2 = get_node_channel_offset_ds cfg a1 a2 ∧
        (0 < cfg.num_ch →
          get_node_channel_offset_us cfg (some a) (some b)
            = cfg.ORCHESTRA_LINKADDR_HASH a % cfg.num_ch ∧
          get_node_channel_offset_us cfg (some a) (some b) < cfg.num_ch)) := by
  intro h
  have h1 := ((h cfgLongSeq none none ⟨66000⟩ ⟨9⟩).2 (by decide)).1
  revert h1
  decide

/-- C17 amended: for every pair of (possibly absent) addresses the upstream and the downstream
channel offset are equal; when the hopping-sequence length ChannelSpace is positive and both
addresses are present the result is `hash(a) mod ChannelSpace` reduced modulo `2 ^ 16`, it is
below ChannelSpace, and it is exactly `hash(a) mod ChannelSpace` when ChannelSpace is moreover
at most 65536. -/
theorem C17_channel_offset_no_direction (cfg : Config) (a1 a2 : Option linkaddr_t)
    (a b : linkaddr_t) :
    get_node_channel_offset_us cfg a1 a2 = get_node_channel_offset_ds cfg a1 a2 ∧
    (0 < cfg.num_ch →
      get_node_channel_offset_us cfg (some a) (some b)
        = (cfg.ORCHESTRA_LINKADDR_HASH a % cfg.num_ch) % 65536 ∧
      get_node_channel_offset_ds cfg (some a) (some b)
        = (cfg.ORCHESTRA_LINKADDR_HASH a % cfg.num_ch) % 65536 ∧
      get_node_channel_offset_us cfg (some a) (some b) < cfg.num_ch ∧
      get_node_channel_offset_ds cfg (some a) (some b) < cfg.num_ch) ∧
    (0 < cfg.num_ch → cfg.num_ch ≤ 65536 →
      get_node_channel_offset_us cfg (some a) (some b)
        = cfg.ORCHESTRA_LINKADDR_HASH a % cfg.num_ch ∧
      get_node_channel_offset_ds cfg (some a) (some b)
        = cfg.ORCHESTRA_LINKADDR_HASH a % cfg.num_ch) := by
  refine ⟨channel_offset_us_eq_ds cfg a1 a2, ?_, ?_⟩
  · intro hN
    have hlt := Nat.mod_lt (cfg.ORCHESTRA_LINKADDR_HASH a) hN
    have hle := Nat.mod_le (cfg.ORCHESTRA_LINKADDR_HASH a % cfg.num_ch) 65536
    rw [← channel_offset_us_eq_ds, channel_offset_us_some cfg a b hN]
    exact ⟨rfl, rfl, by omega, by omega⟩
  · intro hN hle
    have hlt := Nat.mod_lt (cfg.ORCHESTRA_LINKADDR_HASH a) hN
    rw [← channel_offset_us_eq_ds, channel_offset_us_some cfg a b hN]
    have : cfg.ORCHESTRA_LINKADDR_HASH a % cfg.num_ch % 65536
        = cfg.ORCHESTRA_LINKADDR_HASH a % cfg.num_ch := Nat.mod_eq_of_lt (by omega)
    exact ⟨this, this⟩

/-- Witness of amended C17 at Scenario A (four channels): sender 7 gets channel offset `7 mod 4 = 3` in
both directions. -/
theorem C17_channel_offset_no_direction_witness :
    get_node_channel_offset_us cfgA (some ⟨7⟩) (some ⟨9⟩) = 3 ∧
    get_node_channel_offset_ds cfgA (some ⟨7⟩) (some ⟨9⟩) = 3 ∧
    get_node_channel_offset_us cfgA (some ⟨7⟩) none
      = get_node_channel_offset_ds cfgA (some ⟨7⟩) none := by
  have h := C17_channel_offset_no_direction cfgA (some ⟨7⟩) none ⟨7⟩ ⟨9⟩
  have h2 := h.2.2 (by decide) (by decide)
  exact ⟨by rw [h2.1]; decide, by rw [h2.2]; decide, h.1⟩

/-- C18: for every handle `h`, own address and parent, the links `init` installs into the
fresh slotframe are, in the same order and with the same options, timeslots and channel
offsets, the links the rebuild installs for an empty child table, namely the parent pair; and
in the state after `init(h)` every claimed `select_packet` call with a slotframe output cell
writes `h` into it. -/
theorem C18_init_agrees_with_rebuild (cfg : Config) (h : Nat) (s : State) :
    (init cfg h s).sf_unicast.links_list
      = (schedule_unicast_slotframe cfg { s with nbr_routes := [] }).sf_unicast.links_list ∧
    (init cfg h s).sf_unicast.links_list
      = [ ⟨link_option_tx cfg,
            get_node_timeslot_us cfg (some s.linkaddr_node_addr)
              (some s.orchestra_parent_linkaddr),
            get_node_channel_offset_us cfg (some s.linkaddr_node_addr)
              (some s.orchestra_parent_linkaddr)⟩,
          ⟨link_option_rx,
            get_node_timeslot_ds cfg (some s.orchestra_parent_linkaddr)
              (some s.linkaddr_node_addr),
            get_node_channel_offset_ds cfg (some s.orchestra_parent_linkaddr)
              (some s.linkaddr_node_addr)⟩ ] ∧
    (init cfg h s).sf_unicast.handle = h ∧
    (∀ (frame_type : Nat) (dest : linkaddr_t) (v : Nat) (timeslot channel_offset : Option Nat),
      (select_packet cfg (init cfg h s) frame_type dest (some v) timeslot channel_offset).ret = 1 →
      (select_packet cfg (init cfg h s) frame_type dest (some v) timeslot
        channel_offset).slotframe = some h) := by
  refine ⟨?_, ?_, rfl, ?_⟩
  · rw [init_links, schedule_unicast_slotframe_links]
    simp [installed_links]
  · rw [init_links]
    rfl
  · intro frame_type dest v timeslot channel_offset hret
    rw [select_packet_slotframe cfg _ frame_type dest (some v) timeslot channel_offset hret]
    rfl

/-- Witness of C18 on Scenario A with handle 3: `init` installs the parent pair, and a claimed
data frame for the parent 2 reports slotframe 3. -/
theorem C18_init_agrees_with_rebuild_witness :
    (init cfgA 3 stateA).sf_unicast.links_list = [⟨5, 2, 3⟩, ⟨2, 7, 2⟩] ∧
    (select_packet cfgA (init cfgA 3 stateA) FRAME802154_DATAFRAME ⟨2⟩ (some 0) none
      none).slotframe = some 3 := by
  have h := C18_init_agrees_with_rebuild cfgA 3 stateA
  exact ⟨by decide, h.2.2.2 FRAME802154_DATAFRAME ⟨2⟩ 0 none none (by decide)⟩

/-- C19: under the compiled sender-based policy the downstream links the rebuild installs for
any two children `C1` (table position `i`) and `C2` (table position `j`) are the same entry:
same options, same timeslot, same channel offset, all computed from the own address and the
parent only. -/
theorem C19_downstream_links_equal (cfg : Config) (s : State) (i j : Nat) (C1 C2 : linkaddr_t)
    (h1 : s.nbr_routes[i]? = some C1) (h2 : s.nbr_routes[j]? = some C2) :
    (schedule_unicast_slotframe cfg s).sf_unicast.links_list[3 + 2 * i]?
      = (schedule_unicast_slotframe cfg s).sf_unicast.links_list[3 + 2 * j]? ∧
    ∃ l : tsch_link,
      (schedule_unicast_slotframe cfg s).sf_unicast.links_list[3 + 2 * i]? = some l ∧
      l.timeslot = get_node_timeslot_ds cfg (some s.linkaddr_node_addr) (some C1) ∧
      l.timeslot = get_node_timeslot_ds cfg (some s.linkaddr_node_addr) (some C2) ∧
      l.channel_offset = get_node_channel_offset_ds cfg (some s.linkaddr_node_addr) (some C1) ∧
      l.channel_offset = get_node_channel_offset_ds cfg (some s.linkaddr_node_addr) (some C2) := by
  have e1 : (schedule_unicast_slotframe cfg s).sf_unicast.links_list[3 + 2 * i]?
      = some (child_down_link cfg s.linkaddr_node_addr s.orchestra_parent_linkaddr C1) := by
    rw [schedule_unicast_slotframe_links, installed_links_child_down, h1]
    rfl
  have e2 : (schedule_unicast_slotframe cfg s).sf_unicast.links_list[3 + 2 * j]?
      = some (child_down_link cfg s.linkaddr_node_addr s.orchestra_parent_linkaddr C2) := by
    rw [schedule_unicast_slotframe_links, installed_links_child_down, h2]
    rfl
  have hc := child_down_link_const cfg s.linkaddr_node_addr s.orchestra_parent_linkaddr C1 C2
  refine ⟨by rw [e1, e2, hc], _, e1, rfl, ?_, rfl, ?_⟩
  · rw [hc]; rfl
  · rw [hc]; rfl

/-- Witness of C19 on Scenario A: the downstream links of the children 27 and 9, at positions
3 and 5, are both `(options 5, timeslot 7, channel offset 3)`. -/
theorem C19_downstream_links_equal_witness :
    (schedule_unicast_slotframe cfgA stateA).sf_unicast.links_list[3]? = some ⟨5, 7, 3⟩ ∧
    (schedule_unicast_slotframe cfgA stateA).sf_unicast.links_list[5]? = some ⟨5, 7, 3⟩ ∧
    (schedule_unicast_slotframe cfgA stateA).sf_unicast.links_list[3 + 2 * 0]?
      = (schedule_unicast_slotframe cfgA stateA).sf_unicast.links_list[3 + 2 * 1]? :=
  ⟨by decide, by decide,
    (C19_downstream_links_equal cfgA stateA 0 1 ⟨27⟩ ⟨9⟩ (by decide) (by decide)).1⟩

/-- C20: let `remove` be any removal call that takes the given link out of the installed list.
For every installed list and every amount of fuel above its length, the removal loop of lines
165-169 reaches its exit, with an empty list, after exactly as many `remove` calls as there
were installed links. With the engine's removal call the slotframe at loop exit is the one the
rebuild continues with, and the rebuild, a total function, then installs exactly `2 + 2 * n`
links for `n` children, one per install call. -/
theorem C20_rebuild_terminates (remove : tsch_slotframe → tsch_link → tsch_slotframe)
    (hrem : ∀ (sf : tsch_slotframe) (l : tsch_link),
      (remove sf l).links_list = sf.links_list.erase l)
    (cfg : Config) (s : State) (fuel : Nat) (hfuel : s.sf_unicast.links_list.length < fuel) :
    (∃ sf2 : tsch_slotframe,
      remove_links_run remove fuel s.sf_unicast = some (sf2, s.sf_unicast.links_list.length) ∧
      sf2.links_list = []) ∧
    remove_links_run tsch_schedule_remove_link fuel s.sf_unicast
      = some (remove_links_loop s.sf_unicast.links_list.length s.sf_unicast,
          s.sf_unicast.links_list.length) ∧
    (remove_links_loop s.sf_unicast.links_list.length s.sf_unicast).links_list = [] ∧
    (schedule_unicast_slotframe cfg s).sf_unicast.links_list.length
      = 2 + 2 * s.nbr_routes.length := by
  refine ⟨remove_links_run_generic remove hrem fuel _ hfuel, ?_, ?_, ?_⟩
  · rw [remove_links_run_engine fuel _ hfuel, remove_links_loop_empty _ _ (le_refl _)]
  · rw [remove_links_loop_empty _ _ (le_refl _)]
  · rw [schedule_unicast_slotframe_links, installed_links_length]

/-- Witness of C20 on Scenario A's state after a rebuild (six installed links, two children):
the removal loop makes six removal calls and ends with an empty list, and the next rebuild
installs six links again. -/
theorem C20_rebuild_terminates_witness :
    remove_links_run tsch_schedule_remove_link 7
        (schedule_unicast_slotframe cfgA stateA).sf_unicast
      = some ({ handle := 1, size := 10, links_list := [] }, 6) ∧
    (schedule_unicast_slotframe cfgA
      (schedule_unicast_slotframe cfgA stateA)).sf_unicast.links_list.length = 6 := by
  have h := C20_rebuild_terminates tsch_schedule_remove_link (fun _ _ => rfl) cfgA
    (schedule_unicast_slotframe cfgA stateA) 7 (by decide)
  refine ⟨by decide, ?_⟩
  rw [h.2.2.2]
  decide

end SBRPL
